import Mathlib

/-!
# Verification of the ProtonVPN NetworkManager kill switch reconciliation engine

Shallow embedding of `src/protonvpn/killswitch/nmkillswitch.py` (class
`NMKillSwitch`).  The engine talks to the platform (NetworkManager, the
`nmcli` CLI tool, dbus) only through a handful of primitive interactions:

* refreshing the interface-state tracker (`_update_connection_status`),
* running an `nmcli` subprocess (`_run_subprocess`, create/delete),
* searching for / (de)activating a connection over dbus,
* reading and writing the connectivity-check properties.

Every such interaction is given a global call index, and an abstract
`Behaviour` tells, per call index, what the platform answers (the tracker
snapshot reported by a refresh, the return code of a subprocess, whether a
dbus call succeeds, the connectivity-check flags).  Quantifying over
`Behaviour` quantifies over every possible adapter behaviour, including
stale or partial reports.  The ground-truth platform state (which
connections exist / are active) is carried along so that convergence and
make-before-break claims can be stated about the real state trajectory.
-/

/-- The two managed connection names: `pvpn-killswitch` (the Blocking
construct) and `pvpn-routed-killswitch` (the Routed construct). -/
inductive Conn where
  | ks
  | routed
deriving DecidableEq, Repr

/-- Ground-truth state of one NetworkManager connection. -/
structure ConnState where
  present : Bool
  running : Bool
deriving DecidableEq, Repr

/-- Ground-truth platform state for the two managed connections. -/
structure Platform where
  ksConn : ConnState
  routedConn : ConnState
deriving DecidableEq, Repr

/-- The interface state tracker `_interface_state_tracker`: an
`{EXISTS, IS_RUNNING}` snapshot per managed connection name. -/
structure Tracker where
  ksExists : Bool
  ksRunning : Bool
  routedExists : Bool
  routedRunning : Bool
deriving DecidableEq, Repr

def trackerExists (t : Tracker) : Conn → Bool
  | .ks => t.ksExists
  | .routed => t.routedExists

def trackerRunning (t : Tracker) : Conn → Bool
  | .ks => t.ksRunning
  | .routed => t.routedRunning

/-- The adapter calls the engine can make, as recorded in the call log.
`createRouted` records the strategy used (`asAddresses = true` is the
`try_route_addrs` fallback) and the complement set baked into the
command. -/
inductive Call where
  | refresh
  | probeRead
  | probeSet
  | createBlocking
  | createRouted (asAddresses : Bool) (complement : List (Nat × Nat))
  | runDelete (c : Conn)
  | search (c : Conn)
  | dbusActivate (c : Conn)
  | dbusDeactivate (c : Conn)
deriving DecidableEq, Repr

/-- Construct-mutating adapter calls (create / activate / deactivate /
delete), as opposed to queries and connectivity-check management. -/
def Call.isMutation : Call → Bool
  | .createBlocking => true
  | .createRouted _ _ => true
  | .runDelete _ => true
  | .dbusActivate _ => true
  | .dbusDeactivate _ => true
  | _ => false

/-- Modelled from the spec: the exception classes imported from the
repository's `protonvpn/killswitch/exceptions.py`, a file that is not
under `src/` (only its import list in `nmkillswitch.py` is visible).
Each raised error is modelled as a distinct value; `createBlocking`,
`createRouted` and `deleteConn` carry the subprocess return code that the
source attaches as `additional_context`.  `exhausted` is the
`KillswitchError("... Exceeded maximum attempts.")` raised at the retry
cap (the spec's `ReconciliationExhausted`), `routedMissing` the bare
`Exception("Routed connection does not exist")`, and `valueError` the
stdlib `ValueError` raised by `ipaddress.ip_network` on malformed
input. -/
inductive Err where
  | exhausted
  | createBlocking (rc : Nat)
  | createRouted (rc : Nat)
  | activateKS
  | deactivateKS
  | deleteConn (rc : Nat)
  | routedMissing
  | availableConnCheck
  | disableConnCheck
  | valueError
  | typeError
deriving DecidableEq, Repr

/-- An adapter behaviour: what the platform answers at each global adapter
call index.  `report` is the tracker snapshot produced by a refresh
(allowing stale or partial answers), `rc` the return code of a subprocess
run, `found` whether `search_for_connection` returns a truthy result,
`dbusOk` whether a dbus activate/disconnect succeeds, and `probe` the
`(ConnectivityCheckAvailable, ConnectivityCheckEnabled)` pair returned by
a properties read. -/
structure Behaviour where
  report : Nat → Platform → Tracker
  rc : Nat → Nat
  found : Nat → Bool
  dbusOk : Nat → Bool
  probe : Nat → Bool × Bool

/-- The interpreter state: ground-truth platform, the in-memory tracker,
the adapter call log, the next adapter call index, plus two ghost fields:
`attempts` records the attempt counter at the start of each convergence
iteration that passed the retry cap, and `history` records every
ground-truth platform state reached by a successful mutation. -/
structure World where
  plat : Platform
  tracker : Tracker
  log : List Call
  idx : Nat
  attempts : List Nat
  history : List Platform
deriving DecidableEq, Repr

/-- Outcome of running a procedure: Python exceptions propagate while the
already-performed side effects persist, so the error case keeps the
world. -/
inductive Outcome (α : Type) where
  | ok : α → World → Outcome α
  | err : Err → World → Outcome α
deriving DecidableEq, Repr

def Outcome.world : Outcome α → World
  | .ok _ w => w
  | .err _ w => w

def Outcome.errOf : Outcome α → Option Err
  | .ok _ _ => none
  | .err e _ => some e

/-- The effect monad: state plus Python-style exceptions. -/
def M (α : Type) : Type := World → Outcome α

def M.pure (a : α) : M α := fun w => .ok a w

def M.bind (x : M α) (f : α → M β) : M β := fun w =>
  match x w with
  | .ok a w1 => f a w1
  | .err e w1 => .err e w1

instance : Monad M where
  pure := M.pure
  bind := M.bind

def getW : M World := fun w => .ok w w

def modifyW (f : World → World) : M Unit := fun w => .ok () (f w)

def throwE (e : Err) : M α := fun w => .err e w

/-- Python `try`/`except`: the handler runs from the state reached when
the exception was raised. -/
def tryCatchM (x : M α) (h : Err → M α) : M α := fun w =>
  match x w with
  | .ok a w1 => .ok a w1
  | .err e w1 => h e w1

def logCall (c : Call) : M Unit :=
  modifyW fun w => { w with log := w.log ++ [c] }

/-- Consume the next global adapter call index. -/
def nextIdx : M Nat := fun w => .ok w.idx { w with idx := w.idx + 1 }

/-- Apply a ground-truth platform effect (and record it in the ghost
history). -/
def setPlat (f : Platform → Platform) : M Unit :=
  modifyW fun w =>
    { w with plat := f w.plat, history := w.history ++ [f w.plat] }

/-- Ghost instrumentation: record that a convergence iteration with the
given attempt counter has started (past the retry cap check). -/
def noteAttempt (k : Nat) : M Unit :=
  modifyW fun w => { w with attempts := w.attempts ++ [k] }

def setConn (c : Conn) (s : ConnState) (p : Platform) : Platform :=
  match c with
  | .ks => { p with ksConn := s }
  | .routed => { p with routedConn := s }

def getConn (c : Conn) (p : Platform) : ConnState :=
  match c with
  | .ks => p.ksConn
  | .routed => p.routedConn

/-- Modelled from the spec: the ground-truth effect of a successful
`nmcli c a type dummy ...` create.  Per the spec's adapter contract the
Routed/Blocking construct is created and activated ("create+activate",
NetworkManager autoconnects the new dummy connection). -/
def createEff (c : Conn) (p : Platform) : Platform :=
  setConn c ⟨true, true⟩ p

/-- Modelled from the spec: the ground-truth effect of a successful
`nmcli c delete`. -/
def deleteEff (c : Conn) (p : Platform) : Platform :=
  setConn c ⟨false, false⟩ p

/-- Ground-truth effect of a successful dbus activate / disconnect. -/
def setRunning (c : Conn) (v : Bool) (p : Platform) : Platform :=
  setConn c { getConn c p with running := v } p

/-- `NMKillSwitch._update_connection_status`: queries the adapter for all
connections and all active connections and rewrites the tracker snapshot
for the two managed names.  The enumeration answers are abstracted as the
`Tracker` the behaviour reports at this call index. -/
def update_connection_status (b : Behaviour) : M Unit := do
  logCall .refresh
  let n ← nextIdx
  modifyW fun w => { w with tracker := b.report n w.plat }

/-- `NMKillSwitch._run_subprocess`: runs the given `nmcli` command and
raises the provided exception class if the return code is neither 0 nor
10.  The command's ground-truth effect `eff` applies when the CLI reports
an accepted code. -/
def run_subprocess (b : Behaviour) (mk : Nat → Err) (ev : Call)
    (eff : Platform → Platform) : M Unit := do
  logCall ev
  let n ← nextIdx
  if b.rc n ≠ 0 ∧ b.rc n ≠ 10 then throwE (mk (b.rc n))
  else setPlat eff

/-- `NMKillSwitch._create_connection`: refresh, then run the create
command only if the tracker says the connection does not exist. -/
def create_connection (b : Behaviour) (c : Conn) (ev : Call)
    (mk : Nat → Err) : M Unit := do
  update_connection_status b
  let w ← getW
  if trackerExists w.tracker c then M.pure ()
  else run_subprocess b mk ev (createEff c)

/-- `NMKillSwitch._create_killswitch_connection`: build the Blocking
construct command, refresh, and create the connection if it does not
exist. -/
def create_killswitch_connection (b : Behaviour) : M Unit := do
  update_connection_status b
  let w ← getW
  if w.tracker.ksExists then M.pure ()
  else create_connection b .ks .createBlocking (fun r => .createBlocking r)

/-- `NMKillSwitch._activate_connection`: refresh, search for the
connection over dbus, and if the tracker says it exists and is not
running and the search found it, activate it; a dbus failure or a falsy
activation result raises `ActivateKillswitchError`.  Otherwise silently
do nothing. -/
def activate_connection (b : Behaviour) (c : Conn) : M Unit := do
  update_connection_status b
  logCall (.search c)
  let n ← nextIdx
  let w ← getW
  if trackerExists w.tracker c && !trackerRunning w.tracker c && b.found n then do
    logCall (.dbusActivate c)
    let m ← nextIdx
    if b.dbusOk m then setPlat (setRunning c true)
    else throwE .activateKS
  else M.pure ()

/-- `NMKillSwitch._deactivate_connection`: refresh, search for the active
connection, and if the tracker says it is running and the search found
it, disconnect it; a dbus failure raises `DectivateKillswitchError`. -/
def deactivate_connection (b : Behaviour) (c : Conn) : M Unit := do
  update_connection_status b
  logCall (.search c)
  let n ← nextIdx
  let w ← getW
  if trackerRunning w.tracker c && b.found n then do
    logCall (.dbusDeactivate c)
    let m ← nextIdx
    if b.dbusOk m then setPlat (setRunning c false)
    else throwE .deactivateKS
  else M.pure ()

/-- `NMKillSwitch._delete_connection`: refresh, and if the tracker says
the connection exists, run `nmcli c delete`. -/
def delete_connection (b : Behaviour) (c : Conn) : M Unit := do
  update_connection_status b
  let w ← getW
  if trackerExists w.tracker c then
    run_subprocess b (fun r => .deleteConn r) (.runDelete c) (deleteEff c)
  else M.pure ()

/-- `NMKillSwitch._disable_killswitch`: delete both managed
connections. -/
def disable_killswitch (b : Behaviour) : M Unit := do
  delete_connection b .ks
  delete_connection b .routed

/-- `NMKillSwitch._get_status_connectivity_check`: read
`(ConnectivityCheckAvailable, ConnectivityCheckEnabled)` from the
NetworkManager properties. -/
def get_status_connectivity_check (b : Behaviour) : M (Bool × Bool) := do
  logCall .probeRead
  let n ← nextIdx
  M.pure (b.probe n)

/-- `NMKillSwitch._connectivity_check`: returns an empty tuple (here
`none`) when the check is already disabled, raises
`AvailableConnectivityCheckError` when it is enabled but suppression is
unavailable, and otherwise returns the pair. -/
def connectivity_check (b : Behaviour) : M (Option (Bool × Bool)) := do
  let st ← get_status_connectivity_check b
  if !st.2 then M.pure none
  else if !st.1 then throwE .availableConnCheck
  else M.pure (some st)

/-- `NMKillSwitch._disable_connectivity_check`: write
`ConnectivityCheckEnabled = False`, re-read, and raise
`DisableConnectivityCheckError` if the write did not take effect. -/
def disable_connectivity_check (b : Behaviour) (enabled : Bool) : M Unit := do
  if enabled then do
    logCall .probeSet
    let _ ← nextIdx
    let st ← get_status_connectivity_check b
    if st.2 then throwE .disableConnCheck
    else M.pure ()
  else M.pure ()

/-- `NMKillSwitch._ensure_connectivity_check_is_disabled`. -/
def ensure_connectivity_check_is_disabled (b : Behaviour) : M Unit := do
  let conn_check ← connectivity_check b
  match conn_check with
  | none => M.pure ()
  | some st => disable_connectivity_check b st.2

/-! ## The route/address planner

`_create_routed_connection` computes
`list(ip_network('0.0.0.0/0').address_exclude(ip_network(server_ip)))`.
Both functions come from the Python stdlib `ipaddress` module, not from
the repository, and are modelled here.  An IPv4 address is a `Nat` below
`2^32`; a CIDR block is a pair `(prefixValue, prefixLen)` containing the
addresses whose top `prefixLen` bits equal `prefixValue`. -/

/-- Modelled from the spec: parsing outcomes of the stdlib
`ipaddress.ip_network` (strict mode) on the engine's server-address
input: a valid single host (becomes a /32 network), a valid CIDR range
(length and network value in range, host bits clear), or a malformed
string that raises `ValueError`. -/
inductive AddrInput where
  | host (a : Nat)
  | net (p : Nat) (len : Nat)
  | malformed
deriving DecidableEq, Repr

/-- Modelled from the spec: `ipaddress.ip_network` returns the parsed
network `(prefixValue, prefixLen)` or raises `ValueError`. -/
def ipNetwork : AddrInput → Except Unit (Nat × Nat)
  | .host a => if a < 2 ^ 32 then .ok (a, 32) else .error ()
  | .net p len => if len ≤ 32 ∧ p < 2 ^ len then .ok (p, len) else .error ()
  | .malformed => .error ()

/-- The sibling of a block value: the same parent, other child (its last
bit flipped). -/
def sibling (q : Nat) : Nat := if q % 2 = 0 then q + 1 else q - 1

/-- Modelled from the spec: the stdlib `address_exclude` "punch a hole"
algorithm removing the network `(p, len)` from `0.0.0.0/0` — for each
depth from 1 down to `len`, emit the sibling of the excluded network's
prefix at that depth. -/
def addressExclude (p len : Nat) : List (Nat × Nat) :=
  (List.range len).map fun i => (sibling (p / 2 ^ (len - (i + 1))), i + 1)

/-- Membership of an address in a CIDR block `(prefixValue, prefixLen)`. -/
def inBlock (x : Nat) (blk : Nat × Nat) : Prop := x / 2 ^ (32 - blk.2) = blk.1

instance (x : Nat) (blk : Nat × Nat) : Decidable (inBlock x blk) := by
  unfold inBlock; infer_instance

/-- First attempt of `_create_routed_connection` at a given strategy:
`_create_connection` for the routed name, with the command carrying the
strategy and the complement set. -/
def create_routed_attempt (b : Behaviour) (complement : List (Nat × Nat))
    (tryRouteAddrs : Bool) : M Unit :=
  create_connection b .routed (.createRouted tryRouteAddrs complement)
    (fun r => .createRouted r)

/-- `NMKillSwitch._create_routed_connection(server_ip, try_route_addrs=True)`:
the recursive fallback call, unrolled (with `try_route_addrs` already
true the `returncode == 2 and not try_route_addrs` test is false, so any
create failure is re-raised). -/
def create_routed_true (b : Behaviour) (serverIp : AddrInput) : M Unit :=
  match ipNetwork serverIp with
  | .error _ => throwE .valueError
  | .ok net =>
    tryCatchM (create_routed_attempt b (addressExclude net.1 net.2) true)
      (fun e =>
        match e with
        | .createRouted r => throwE (.createRouted r)
        | e1 => throwE e1)

/-- `NMKillSwitch._create_routed_connection`: parse the server address
(`ValueError` on malformed input), compute the complement of the full
address space minus the parsed network, and create the Routed construct
using the routes strategy (`try_route_addrs = false`) or the addresses
strategy; on `CreateRoutedKillswitchError` with return code 2 and the
fallback not yet tried, retry with the addresses strategy (the source's
self-call with `try_route_addrs=True`, expanded as
`create_routed_true`); any other create failure is re-raised. -/
def create_routed_connection (b : Behaviour) (serverIp : AddrInput)
    (tryRouteAddrs : Bool) : M Unit :=
  if tryRouteAddrs then create_routed_true b serverIp
  else
    match ipNetwork serverIp with
    | .error _ => throwE .valueError
    | .ok net =>
      tryCatchM (create_routed_attempt b (addressExclude net.1 net.2) false)
        (fun e =>
          match e with
          | .createRouted r =>
            if r = 2 then create_routed_true b serverIp
            else throwE (.createRouted r)
          | e1 => throwE e1)

/-! ## The convergence procedures

`_setup_pre_connection_ks` and `_setup_post_connection_ks` recurse with
an incremented attempt counter and raise at `attempts >= 5`.  The
recursion is encoded structurally on the fuel `5 - attempts`, with
unfolding equations (`setup_pre_connection_ks_eq`,
`setup_post_connection_ks_eq`) proved below that exhibit the source's
counter-and-cap shape. -/

/-- Body of `_setup_pre_connection_ks` with fuel `5 - pre_attempts`.
At fuel 0 the cap `pre_attempts >= 5` has been reached: refresh, then
raise the exhaustion error. -/
def setup_pre_connection_ks_aux (b : Behaviour) (serverIp : AddrInput) :
    Nat → Nat → M Unit
  | 0, _ => do
    update_connection_status b
    throwE .exhausted
  | fuel + 1, preAttempts => do
    update_connection_status b
    noteAttempt preAttempts
    let w ← getW
    if w.tracker.ksRunning && !w.tracker.routedExists then do
      -- happy path: create+activate Routed, then deactivate Blocking
      create_routed_connection b serverIp false
      deactivate_connection b .ks
    else if !w.tracker.ksRunning && w.tracker.routedRunning then
      M.pure ()
    else
      -- remove the routed ks if present and running, then start the
      -- blocking ks if it exists (else create it), then retry
      (if w.tracker.routedExists && w.tracker.routedRunning then
        delete_connection b .routed
      else M.pure ()) >>= fun _ =>
      getW >>= fun w2 =>
      (if w2.tracker.ksExists then activate_connection b .ks
       else create_killswitch_connection b) >>= fun _ =>
      setup_pre_connection_ks_aux b serverIp fuel (preAttempts + 1)

/-- `NMKillSwitch._setup_pre_connection_ks`. -/
def setup_pre_connection_ks (b : Behaviour) (serverIp : AddrInput)
    (preAttempts : Nat) : M Unit :=
  setup_pre_connection_ks_aux b serverIp (5 - preAttempts) preAttempts

/-- Body of `_setup_post_connection_ks` with fuel `5 - post_attempts`. -/
def setup_post_connection_ks_aux (b : Behaviour)
    (activatingSoftConnection : Bool) : Nat → Nat → M Unit
  | 0, _ => do
    update_connection_status b
    throwE .exhausted
  | fuel + 1, postAttempts => do
    update_connection_status b
    noteAttempt postAttempts
    let w ← getW
    if !w.tracker.ksRunning && w.tracker.routedRunning then do
      -- happy path: activate Blocking, then delete Routed
      activate_connection b .ks
      delete_connection b .routed
    else if activatingSoftConnection &&
        (!w.tracker.routedRunning || !w.tracker.routedExists) then
      activate_connection b .ks
    else if w.tracker.ksRunning &&
        (!w.tracker.routedExists || !w.tracker.routedRunning) then
      M.pure ()
    else
      (if w.tracker.ksRunning then deactivate_connection b .ks
      else M.pure ()) >>= fun _ =>
      getW >>= fun w2 =>
      if w2.tracker.routedExists then
        activate_connection b .routed >>= fun _ =>
        setup_post_connection_ks_aux b activatingSoftConnection fuel
          (postAttempts + 1)
      else throwE .routedMissing

/-- `NMKillSwitch._setup_post_connection_ks`. -/
def setup_post_connection_ks (b : Behaviour) (postAttempts : Nat)
    (activatingSoftConnection : Bool) : M Unit :=
  setup_post_connection_ks_aux b activatingSoftConnection (5 - postAttempts)
    postAttempts

/-- `NMKillSwitch._setup_soft_connection`. -/
def setup_soft_connection (b : Behaviour) : M Unit := do
  create_killswitch_connection b
  setup_post_connection_ks b 0 true

/-- The four reconciliation actions of `NMKillSwitch._manage`. -/
inductive KSAction where
  | preConnection
  | postConnection
  | soft
  | disable
deriving DecidableEq, Repr

/-- `NMKillSwitch._manage`: suppress the connectivity check, refresh, and
dispatch `actions_dict[action](server_ip)`.  The `SOFT` entry is
`_setup_soft_connection`, which takes no argument, so dispatching it with
`server_ip` raises a `TypeError` before doing anything. -/
def manage (b : Behaviour) (action : KSAction) (serverIp : AddrInput) :
    M Unit := do
  ensure_connectivity_check_is_disabled b
  update_connection_status b
  match action with
  | .preConnection => setup_pre_connection_ks b serverIp 0
  | .postConnection => setup_post_connection_ks b 0 false
  | .soft => throwE .typeError
  | .disable => disable_killswitch b

/-- `NMKillSwitch.is_active`: pure read of the last tracker snapshot, no
adapter call. -/
def is_active (w : World) : Bool :=
  if w.tracker.ksExists then
    if w.tracker.ksRunning then true
    else false
  else false

/-- `NMKillSwitch.enable`: the permanent path suppresses the connectivity
check, refreshes, best-effort deletes the Routed construct (`except:
pass`), then creates or activates the Blocking construct; the
non-permanent path goes directly to `_setup_soft_connection`. -/
def enable (b : Behaviour) (permanent : Bool) : M Unit := do
  if permanent then do
    ensure_connectivity_check_is_disabled b
    update_connection_status b
    tryCatchM (delete_connection b .routed) (fun _ => M.pure ())
    let w ← getW
    if !w.tracker.ksExists then create_killswitch_connection b
    else activate_connection b .ks
  else setup_soft_connection b

/-- `NMKillSwitch.disable`. -/
def disableKS (b : Behaviour) : M Unit := do
  ensure_connectivity_check_is_disabled b
  update_connection_status b
  disable_killswitch b

/-- The ideal adapter behaviour: refreshes report the ground-truth
platform state, every subprocess exits 0, every dbus call succeeds, the
connectivity check is reported available and already disabled. -/
def idealReport (p : Platform) : Tracker :=
  ⟨p.ksConn.present, p.ksConn.running, p.routedConn.present,
    p.routedConn.running⟩

def ideal : Behaviour where
  report := fun _ p => idealReport p
  rc := fun _ => 0
  found := fun _ => true
  dbusOk := fun _ => true
  probe := fun _ => (true, false)

/-- An initial world: platform `p`, initial tracker snapshot `t`, empty
log and ghost fields, first adapter call index `n`. -/
def world0 (p : Platform) (t : Tracker) (n : Nat) : World :=
  ⟨p, t, [], n, [], []⟩

/-! World transformers naming the effect of the primitive steps, used to
state the characterization lemmas below. -/

/-- Log one adapter call and consume its index. -/
def logIdxW (c : Call) (w : World) : World :=
  { w with log := w.log ++ [c], idx := w.idx + 1 }

/-- Effect of `_update_connection_status`. -/
def refreshW (b : Behaviour) (w : World) : World :=
  { logIdxW .refresh w with tracker := b.report w.idx w.plat }

/-- Effect of a successful ground-truth platform mutation. -/
def platW (f : Platform → Platform) (w : World) : World :=
  { w with plat := f w.plat, history := w.history ++ [f w.plat] }

/-- Effect of the ghost attempt counter note. -/
def noteW (k : Nat) (w : World) : World :=
  { w with attempts := w.attempts ++ [k] }

/-- A behaviour whose refreshes always report both connections as absent
and inactive; subprocesses succeed, dbus succeeds, connectivity check
already disabled. -/
def bAllAbsent : Behaviour where
  report := fun _ _ => ⟨false, false, false, false⟩
  rc := fun _ => 0
  found := fun _ => true
  dbusOk := fun _ => true
  probe := fun _ => (true, false)

/-- A behaviour whose refreshes always report the Blocking construct as
existing and running and the Routed construct as existing but not
running: never the happy-path nor the converged state of the
pre-connection procedure, so it retries until the cap. -/
def bStuck : Behaviour where
  report := fun _ _ => ⟨true, true, true, false⟩
  rc := fun _ => 0
  found := fun _ => true
  dbusOk := fun _ => true
  probe := fun _ => (true, false)

/-- Behaviour for the C9 witness: everything reported absent, every
subprocess exits 10. -/
def bRc10 : Behaviour where
  report := fun _ _ => ⟨false, false, false, false⟩
  rc := fun _ => 10
  found := fun _ => true
  dbusOk := fun _ => true
  probe := fun _ => (true, false)

/-- Behaviour for the C9 witness: everything reported present, every
subprocess exits 7. -/
def bRc7 : Behaviour where
  report := fun _ _ => ⟨true, true, true, true⟩
  rc := fun _ => 7
  found := fun _ => true
  dbusOk := fun _ => true
  probe := fun _ => (true, false)

/-- Behaviour for the C8 witness: everything reported present, every
subprocess exits 0. -/
def bAllPresent : Behaviour where
  report := fun _ _ => ⟨true, true, true, true⟩
  rc := fun _ => 0
  found := fun _ => true
  dbusOk := fun _ => true
  probe := fun _ => (true, false)

/-- Behaviour for the C6 witness: constructs always reported absent; the
first create CLI call (index 1) exits 2, every other subprocess exits
0. -/
def bFallback : Behaviour where
  report := fun _ _ => ⟨false, false, false, false⟩
  rc := fun n => if n = 1 then 2 else 0
  found := fun _ => true
  dbusOk := fun _ => true
  probe := fun _ => (true, false)

/-! ## Characterization lemmas for the primitive operations -/

theorem update_connection_status_apply (b : Behaviour) (w : World) :
    update_connection_status b w = .ok () (refreshW b w) := rfl


theorem run_subprocess_apply (b : Behaviour) (mk : Nat → Err) (ev : Call)
    (eff : Platform → Platform) (w : World) :
    run_subprocess b mk ev eff w =
      if b.rc w.idx ≠ 0 ∧ b.rc w.idx ≠ 10 then
        .err (mk (b.rc w.idx)) (logIdxW ev w)
      else .ok () (platW eff (logIdxW ev w)) := by
  simp only [run_subprocess, logCall, nextIdx, modifyW, throwE, setPlat,
    Bind.bind, bind, M.bind, logIdxW, platW]
  split <;> rfl

theorem create_connection_apply (b : Behaviour) (c : Conn) (ev : Call)
    (mk : Nat → Err) (w : World) :
    create_connection b c ev mk w =
      if trackerExists (b.report w.idx w.plat) c then .ok () (refreshW b w)
      else run_subprocess b mk ev (createEff c) (refreshW b w) := by
  simp only [create_connection, update_connection_status, logCall, nextIdx,
    modifyW, getW, M.pure, Pure.pure, pure, Bind.bind, bind, M.bind,
    refreshW, logIdxW]
  split <;> rfl

theorem create_killswitch_connection_apply (b : Behaviour) (w : World) :
    create_killswitch_connection b w =
      if (b.report w.idx w.plat).ksExists then .ok () (refreshW b w)
      else create_connection b .ks .createBlocking
        (fun r => .createBlocking r) (refreshW b w) := by
  simp only [create_killswitch_connection, update_connection_status, logCall,
    nextIdx, modifyW, getW, M.pure, Pure.pure, pure, Bind.bind, bind, M.bind,
    refreshW, logIdxW]
  split <;> rfl

theorem activate_connection_apply (b : Behaviour) (c : Conn) (w : World) :
    activate_connection b c w =
      if trackerExists (b.report w.idx w.plat) c &&
          !trackerRunning (b.report w.idx w.plat) c && b.found (w.idx + 1) then
        if b.dbusOk (w.idx + 2) then
          .ok () (platW (setRunning c true)
            (logIdxW (.dbusActivate c) (logIdxW (.search c) (refreshW b w))))
        else
          .err .activateKS
            (logIdxW (.dbusActivate c) (logIdxW (.search c) (refreshW b w)))
      else .ok () (logIdxW (.search c) (refreshW b w)) := by
  by_cases hc : (trackerExists (b.report w.idx w.plat) c &&
      !trackerRunning (b.report w.idx w.plat) c && b.found (w.idx + 1)) = true
  · by_cases hd : b.dbusOk (w.idx + 2) = true <;>
      simp [activate_connection, update_connection_status, logCall, nextIdx,
        modifyW, getW, M.pure, Pure.pure, pure, Bind.bind, bind, M.bind,
        throwE, setPlat, refreshW, logIdxW, platW, hc, hd]
  · simp [activate_connection, update_connection_status, logCall, nextIdx,
      modifyW, getW, M.pure, Pure.pure, pure, Bind.bind, bind, M.bind,
      throwE, setPlat, refreshW, logIdxW, platW, hc]

theorem deactivate_connection_apply (b : Behaviour) (c : Conn) (w : World) :
    deactivate_connection b c w =
      if trackerRunning (b.report w.idx w.plat) c && b.found (w.idx + 1) then
        if b.dbusOk (w.idx + 2) then
          .ok () (platW (setRunning c false)
            (logIdxW (.dbusDeactivate c) (logIdxW (.search c) (refreshW b w))))
        else
          .err .deactivateKS
            (logIdxW (.dbusDeactivate c) (logIdxW (.search c) (refreshW b w)))
      else .ok () (logIdxW (.search c) (refreshW b w)) := by
  by_cases hc : (trackerRunning (b.report w.idx w.plat) c &&
      b.found (w.idx + 1)) = true
  · by_cases hd : b.dbusOk (w.idx + 2) = true <;>
      simp [deactivate_connection, update_connection_status, logCall, nextIdx,
        modifyW, getW, M.pure, Pure.pure, pure, Bind.bind, bind, M.bind,
        throwE, setPlat, refreshW, logIdxW, platW, hc, hd]
  · simp [deactivate_connection, update_connection_status, logCall, nextIdx,
      modifyW, getW, M.pure, Pure.pure, pure, Bind.bind, bind, M.bind,
      throwE, setPlat, refreshW, logIdxW, platW, hc]

theorem delete_connection_apply (b : Behaviour) (c : Conn) (w : World) :
    delete_connection b c w =
      if trackerExists (b.report w.idx w.plat) c then
        run_subprocess b (fun r => .deleteConn r) (.runDelete c)
          (deleteEff c) (refreshW b w)
      else .ok () (refreshW b w) := by
  simp only [delete_connection, update_connection_status, logCall, nextIdx,
    modifyW, getW, M.pure, Pure.pure, pure, Bind.bind, bind, M.bind,
    refreshW, logIdxW]
  split <;> rfl

theorem ensure_connectivity_check_apply (b : Behaviour) (w : World) :
    ensure_connectivity_check_is_disabled b w =
      if !(b.probe w.idx).2 then .ok () (logIdxW .probeRead w)
      else if !(b.probe w.idx).1 then
        .err .availableConnCheck (logIdxW .probeRead w)
      else
        if (b.probe (w.idx + 2)).2 then
          .err .disableConnCheck
            (logIdxW .probeRead (logIdxW .probeSet (logIdxW .probeRead w)))
        else
          .ok ()
            (logIdxW .probeRead (logIdxW .probeSet (logIdxW .probeRead w))) := by
  by_cases h2 : (b.probe w.idx).2 = true <;>
    by_cases h1 : (b.probe w.idx).1 = true <;>
      by_cases h3 : (b.probe (w.idx + 2)).2 = true <;>
        simp [ensure_connectivity_check_is_disabled, connectivity_check,
          get_status_connectivity_check, disable_connectivity_check, logCall,
          nextIdx, modifyW, getW, M.pure, Pure.pure, pure, Bind.bind, bind,
          M.bind, throwE, logIdxW, h1, h2, h3]

/-! ## Arithmetic facts about the route/address planner -/

theorem sibling_ne (q : Nat) : sibling q ≠ q := by
  unfold sibling; split <;> omega

theorem sibling_half (q : Nat) : sibling q / 2 = q / 2 := by
  unfold sibling; split <;> omega

theorem eq_sibling_of_half_eq {q1 q2 : Nat} (h : q1 / 2 = q2 / 2)
    (hne : q1 ≠ q2) : q1 = sibling q2 := by
  unfold sibling; split <;> omega

theorem div_pow_succ (x s : Nat) : x / 2 ^ (s + 1) = x / 2 ^ s / 2 := by
  rw [Nat.div_div_eq_div_mul, pow_succ]

theorem div_pow_agree {x a s t : Nat} (hst : s ≤ t)
    (h : x / 2 ^ s = a / 2 ^ s) : x / 2 ^ t = a / 2 ^ t := by
  have hd : t = s + (t - s) := by omega
  rw [hd, pow_add, ← Nat.div_div_eq_div_mul, ← Nat.div_div_eq_div_mul, h]

theorem mem_addressExclude {a : Nat} {blk : Nat × Nat} :
    blk ∈ addressExclude a 32 ↔
      ∃ i, i < 32 ∧ (sibling (a / 2 ^ (32 - (i + 1))), i + 1) = blk := by
  simp [addressExclude, List.mem_map, List.mem_range]

theorem planner_no_overlap_key (x a : Nat) :
    ∀ l m : Nat, l ≤ 32 → m ≤ 32 → l < m →
      x / 2 ^ (32 - l) = sibling (a / 2 ^ (32 - l)) →
      x / 2 ^ (32 - m) = sibling (a / 2 ^ (32 - m)) → False := by
  intro l m hl32 hm32 hlt hxl hxm
  have hhalf : x / 2 ^ (32 - m) / 2 = a / 2 ^ (32 - m) / 2 := by
    rw [hxm, sibling_half]
  have hagree : x / 2 ^ ((32 - m) + 1) = a / 2 ^ ((32 - m) + 1) := by
    rw [div_pow_succ, div_pow_succ, hhalf]
  have hmono : x / 2 ^ (32 - l) = a / 2 ^ (32 - l) :=
    div_pow_agree (show (32 - m) + 1 ≤ 32 - l by omega) hagree
  rw [hxl] at hmono
  exact sibling_ne _ hmono

/-- C5: the complement set computed by `_create_routed_connection`
(`address_exclude` of the single-host server address from `0.0.0.0/0`)
together with the address itself partitions the full IPv4 address space:
the address lies in no block (disjoint from `{addr}`), every other
address lies in some block (no gaps), and in only one block (no
overlap).  Determinism and side-effect freedom are definitional, since
`addressExclude` is a pure function of its input. -/
theorem C5_planRouted_partition (a x : Nat) (ha : a < 2 ^ 32)
    (hx : x < 2 ^ 32) :
    (∀ blk ∈ addressExclude a 32, ¬ inBlock a blk) ∧
    (x ≠ a → ∃ blk ∈ addressExclude a 32, inBlock x blk) ∧
    (∀ b1 ∈ addressExclude a 32, ∀ b2 ∈ addressExclude a 32,
      inBlock x b1 → inBlock x b2 → b1 = b2) := by
  refine ⟨?_, ?_, ?_⟩
  · intro blk hblk hmem
    obtain ⟨i, hi, rfl⟩ := mem_addressExclude.1 hblk
    have hmem2 : a / 2 ^ (32 - (i + 1)) = sibling (a / 2 ^ (32 - (i + 1))) := hmem
    exact sibling_ne _ hmem2.symm
  · intro hne
    have hP : x / 2 ^ (32 - 32) ≠ a / 2 ^ (32 - 32) := by simpa using hne
    have hex : ∃ l, x / 2 ^ (32 - l) ≠ a / 2 ^ (32 - l) := ⟨32, hP⟩
    have hfind : x / 2 ^ (32 - Nat.find hex) ≠ a / 2 ^ (32 - Nat.find hex) :=
      Nat.find_spec hex
    have hle : Nat.find hex ≤ 32 := Nat.find_min' hex hP
    have hpos : 0 < Nat.find hex := by
      rcases Nat.eq_zero_or_pos (Nat.find hex) with h0 | h
      · exfalso
        apply hfind
        rw [h0, Nat.sub_zero, Nat.div_eq_of_lt hx, Nat.div_eq_of_lt ha]
      · exact h
    have hagree : x / 2 ^ (32 - (Nat.find hex - 1)) =
        a / 2 ^ (32 - (Nat.find hex - 1)) := by
      by_contra hcon
      exact Nat.find_min hex (show Nat.find hex - 1 < Nat.find hex by omega) hcon
    have hstep : 32 - (Nat.find hex - 1) = (32 - Nat.find hex) + 1 := by omega
    have hhalf : x / 2 ^ (32 - Nat.find hex) / 2 =
        a / 2 ^ (32 - Nat.find hex) / 2 := by
      rw [← div_pow_succ, ← div_pow_succ, ← hstep, hagree]
    have hsib : x / 2 ^ (32 - Nat.find hex) =
        sibling (a / 2 ^ (32 - Nat.find hex)) :=
      eq_sibling_of_half_eq hhalf hfind
    refine ⟨(sibling (a / 2 ^ (32 - Nat.find hex)), Nat.find hex), ?_, hsib⟩
    rw [mem_addressExclude]
    refine ⟨Nat.find hex - 1, by omega, ?_⟩
    rw [show Nat.find hex - 1 + 1 = Nat.find hex by omega]
  · intro b1 hb1 b2 hb2 hx1 hx2
    obtain ⟨i1, hi1, he1⟩ := mem_addressExclude.1 hb1
    obtain ⟨i2, hi2, he2⟩ := mem_addressExclude.1 hb2
    subst he1; subst he2
    rcases Nat.lt_trichotomy (i1 + 1) (i2 + 1) with hlt | heq | hgt
    · exact (planner_no_overlap_key x a (i1 + 1) (i2 + 1)
        (by omega) (by omega) hlt hx1 hx2).elim
    · simp [show i1 = i2 by omega]
    · exact (planner_no_overlap_key x a (i2 + 1) (i1 + 1)
        (by omega) (by omega) hgt hx2 hx1).elim

theorem idx_add_two (n : Nat) : n + 1 + 1 = n + 2 := rfl

theorem idx_add_three (n : Nat) : n + 1 + 1 + 1 = n + 3 := rfl

theorem idx_add_four (n : Nat) : n + 1 + 1 + 1 + 1 = n + 4 := rfl

/-! ## Claim C9: accepted subprocess exit codes -/

/-- C9: for the CLI invocations performed by the create and delete
operations, an operation error is raised if and only if the process exit
code is neither 0 nor 10 (exit code 10 is silently treated as a second
accepted success code).  The hypotheses put the tracker reports in the
state in which the operation actually issues its CLI call. -/
theorem C9_cli_exit_codes (b : Behaviour) (w : World) :
    ((b.report w.idx w.plat).ksExists = false →
      (b.report (w.idx + 1) w.plat).ksExists = false →
      (create_killswitch_connection b w).errOf =
        if b.rc (w.idx + 2) ≠ 0 ∧ b.rc (w.idx + 2) ≠ 10 then
          some (.createBlocking (b.rc (w.idx + 2)))
        else none) ∧
    ((b.report w.idx w.plat).ksExists = true →
      (delete_connection b .ks w).errOf =
        if b.rc (w.idx + 1) ≠ 0 ∧ b.rc (w.idx + 1) ≠ 10 then
          some (.deleteConn (b.rc (w.idx + 1)))
        else none) := by
  constructor
  · intro h1 h2
    rw [create_killswitch_connection_apply, h1]
    simp only [Bool.false_eq_true, if_false]
    rw [create_connection_apply]
    simp only [refreshW, logIdxW, trackerExists, h2, Bool.false_eq_true,
      if_false, run_subprocess_apply, idx_add_two]
    split <;> rfl
  · intro h1
    rw [delete_connection_apply]
    simp only [trackerExists, h1, if_true, run_subprocess_apply, refreshW,
      logIdxW]
    split <;> rfl

/-- Witness for C9 at concrete behaviours and worlds: exit code 10 on the
create path is accepted, exit code 7 on the delete path raises. -/
theorem C9_cli_exit_codes_witness :
    (create_killswitch_connection bRc10
      (world0 ⟨⟨false, false⟩, ⟨false, false⟩⟩ ⟨false, false, false, false⟩ 0)).errOf =
        (if bRc10.rc 2 ≠ 0 ∧ bRc10.rc 2 ≠ 10 then
          some (.createBlocking (bRc10.rc 2)) else none) ∧
    (delete_connection bRc7 .ks
      (world0 ⟨⟨true, true⟩, ⟨true, true⟩⟩ ⟨false, false, false, false⟩ 0)).errOf =
        (if bRc7.rc 1 ≠ 0 ∧ bRc7.rc 1 ≠ 10 then
          some (.deleteConn (bRc7.rc 1)) else none) :=
  ⟨(C9_cli_exit_codes bRc10
      (world0 ⟨⟨false, false⟩, ⟨false, false⟩⟩ ⟨false, false, false, false⟩ 0)).1
        (by decide) (by decide),
   (C9_cli_exit_codes bRc7
      (world0 ⟨⟨true, true⟩, ⟨true, true⟩⟩ ⟨false, false, false, false⟩ 0)).2
        (by decide)⟩

/-! ## Claim C10: `is_active` is a pure snapshot read -/

/-- C10: `is_active` returns true exactly when the tracker's last
recorded snapshot marks the Blocking construct as both existing and
running; it depends only on the tracker field — not on the current
platform state — and, being a plain function of the world with no
monadic effect, performs no adapter query and no tracker refresh. -/
theorem C10_is_active_snapshot :
    (∀ w : World, is_active w = (w.tracker.ksExists && w.tracker.ksRunning)) ∧
    (∀ w : World, ∀ p : Platform,
      is_active { w with plat := p } = is_active w) ∧
    (∀ w1 w2 : World, w1.tracker = w2.tracker →
      is_active w1 = is_active w2) := by
  refine ⟨?_, ?_, ?_⟩
  · intro w
    unfold is_active
    cases h1 : w.tracker.ksExists <;> cases h2 : w.tracker.ksRunning <;>
      simp [h1, h2]
  · intro w p
    rfl
  · intro w1 w2 h
    unfold is_active
    rw [h]

/-- Witness for C10: two concrete worlds sharing a tracker snapshot but
with different platform states give the same answer. -/
theorem C10_is_active_snapshot_witness :
    is_active (world0 ⟨⟨false, false⟩, ⟨false, false⟩⟩ ⟨true, true, false, false⟩ 0) =
      is_active (world0 ⟨⟨true, true⟩, ⟨true, true⟩⟩ ⟨true, true, false, false⟩ 0) :=
  C10_is_active_snapshot.2.2
    (world0 ⟨⟨false, false⟩, ⟨false, false⟩⟩ ⟨true, true, false, false⟩ 0)
    (world0 ⟨⟨true, true⟩, ⟨true, true⟩⟩ ⟨true, true, false, false⟩ 0) rfl
/-! ## Claim C8: Disable deletes both constructs; both-absent is a no-op -/

/-- C8: `_disable_killswitch` deletes both constructs unconditionally
(whenever the tracker reports them as existing, regardless of whether
they are running), and when both constructs are reported absent it is a
no-op: the run performs exactly the two tracker refreshes, issues no
delete command, and raises no error. -/
theorem C8_disable_no_op (b : Behaviour) (w : World) :
    ((b.report w.idx w.plat).ksExists = false →
      (b.report (w.idx + 1) w.plat).routedExists = false →
      disable_killswitch b w = .ok () (refreshW b (refreshW b w))) ∧
    ((∀ n p, (b.report n p).ksExists = true ∧ (b.report n p).routedExists = true) →
      (∀ n, b.rc n = 0) →
      Call.runDelete .ks ∈ (disable_killswitch b w).world.log ∧
      Call.runDelete .routed ∈ (disable_killswitch b w).world.log ∧
      (disable_killswitch b w).errOf = none) := by
  constructor
  · intro h1 h2
    simp only [disable_killswitch, Bind.bind, bind, M.bind,
      delete_connection_apply, trackerExists, refreshW, logIdxW, h1, h2,
      Bool.false_eq_true, if_false]
  · intro h hrc
    have hks : ∀ n p, (b.report n p).ksExists = true := fun n p => (h n p).1
    have hrt : ∀ n p, (b.report n p).routedExists = true := fun n p => (h n p).2
    simp only [disable_killswitch, Bind.bind, bind, M.bind,
      delete_connection_apply, run_subprocess_apply, trackerExists, refreshW,
      logIdxW, platW, hks, hrt, hrc, if_true, ne_eq, not_true_eq_false,
      false_and, if_false, Outcome.world, Outcome.errOf]
    simp [List.mem_append]

/-- Witness for C8: with both constructs reported absent the disable run
is exactly two refreshes; with both present (and exit code 0) both
delete commands appear in the log. -/
theorem C8_disable_no_op_witness :
    disable_killswitch bAllAbsent
        (world0 ⟨⟨false, false⟩, ⟨false, false⟩⟩ ⟨true, true, true, true⟩ 0) =
      .ok () (refreshW bAllAbsent (refreshW bAllAbsent
        (world0 ⟨⟨false, false⟩, ⟨false, false⟩⟩ ⟨true, true, true, true⟩ 0))) ∧
    Call.runDelete .ks ∈ (disable_killswitch bAllPresent
      (world0 ⟨⟨true, true⟩, ⟨true, true⟩⟩ ⟨false, false, false, false⟩ 0)).world.log :=
  ⟨(C8_disable_no_op bAllAbsent
      (world0 ⟨⟨false, false⟩, ⟨false, false⟩⟩ ⟨true, true, true, true⟩ 0)).1
        (by decide) (by decide),
   ((C8_disable_no_op bAllPresent
      (world0 ⟨⟨true, true⟩, ⟨true, true⟩⟩ ⟨false, false, false, false⟩ 0)).2
        (fun n p => ⟨rfl, rfl⟩) (fun n => rfl)).1⟩

/-! ## Claim C7: malformed / non-single-host server addresses -/

/-- C7 counterexample: the claim says any input that is not a valid
single host — including a range — fails fast with a typed
`InvalidServerAddress` before any platform mutation.  In the code a
valid CIDR range (here `1.0.0.0/8`, prefix value 1, length 8) is
accepted by `ip_network`, no error of any kind is raised, and a
construct-creating CLI call is issued (a platform mutation); moreover no
`InvalidServerAddress` class exists in the code's import list at all. -/
theorem C7_counterexample :
    (create_routed_connection bAllAbsent (.net 1 8) false
      (world0 ⟨⟨false, false⟩, ⟨false, false⟩⟩ ⟨false, false, false, false⟩ 0)).errOf
        = none ∧
    Call.createRouted false (addressExclude 1 8) ∈
      (create_routed_connection bAllAbsent (.net 1 8) false
        (world0 ⟨⟨false, false⟩, ⟨false, false⟩⟩ ⟨false, false, false, false⟩ 0)).world.log := by
  decide

theorem tryCatchM_apply (x : M α) (hd : Err → M α) (w : World) :
    tryCatchM x hd w =
      match x w with
      | .ok a w1 => .ok a w1
      | .err e w1 => hd e w1 := rfl

theorem create_routed_attempt_err (b : Behaviour) (comp : List (Nat × Nat))
    (flag : Bool) (w : World) :
    (create_routed_attempt b comp flag w).errOf = none ∨
    ∃ r, (create_routed_attempt b comp flag w).errOf = some (.createRouted r) := by
  unfold create_routed_attempt
  rw [create_connection_apply]
  split
  · exact Or.inl rfl
  · rw [run_subprocess_apply]
    split
    · exact Or.inr ⟨_, rfl⟩
    · exact Or.inl rfl

theorem create_routed_true_no_value_error (b : Behaviour) (s : AddrInput)
    (w : World) (net : Nat × Nat) (hip : ipNetwork s = .ok net) :
    (create_routed_true b s w).errOf ≠ some .valueError := by
  unfold create_routed_true
  rw [hip]
  show (tryCatchM (create_routed_attempt b (addressExclude net.1 net.2) true)
    _ w).errOf ≠ _
  rw [tryCatchM_apply]
  rcases h : create_routed_attempt b (addressExclude net.1 net.2) true w with
    ⟨u, w1⟩ | ⟨e, w1⟩
  · simp [Outcome.errOf]
  · rcases create_routed_attempt_err b (addressExclude net.1 net.2) true w with
      h0 | ⟨r, hr⟩
    · rw [h] at h0; simp [Outcome.errOf] at h0
    · rw [h] at hr
      have he : e = .createRouted r := by simpa [Outcome.errOf] using hr
      subst he
      simp [throwE, Outcome.errOf]

theorem create_routed_connection_no_value_error (b : Behaviour)
    (s : AddrInput) (w : World) (net : Nat × Nat)
    (hip : ipNetwork s = .ok net) :
    (create_routed_connection b s false w).errOf ≠ some .valueError := by
  unfold create_routed_connection
  rw [if_neg (by simp), hip]
  show (tryCatchM (create_routed_attempt b (addressExclude net.1 net.2) false)
    _ w).errOf ≠ _
  rw [tryCatchM_apply]
  rcases h : create_routed_attempt b (addressExclude net.1 net.2) false w with
    ⟨u, w1⟩ | ⟨e, w1⟩
  · simp [Outcome.errOf]
  · rcases create_routed_attempt_err b (addressExclude net.1 net.2) false w with
      h0 | ⟨r, hr⟩
    · rw [h] at h0; simp [Outcome.errOf] at h0
    · rw [h] at hr
      have he : e = .createRouted r := by simpa [Outcome.errOf] using hr
      subst he
      show ((if r = 2 then create_routed_true b s
        else throwE (.createRouted r)) w1).errOf ≠ _
      by_cases h2 : r = 2
      · rw [if_pos h2]
        exact create_routed_true_no_value_error b s w1 net hip
      · rw [if_neg h2]
        simp [throwE, Outcome.errOf]

/-- C7 amended: a malformed (unparseable) address makes
`_create_routed_connection` raise the stdlib parse error (`ValueError`,
not a typed `InvalidServerAddress`, which does not exist in the code)
before any platform interaction, leaving the world untouched; a valid
CIDR range and a valid single host are both accepted — the parse step
never rejects a range, so a range input proceeds to the create path
instead of failing fast. -/
theorem C7_amended_parse_errors (b : Behaviour) (w : World) :
    (create_routed_connection b .malformed false w = .err .valueError w) ∧
    (∀ p len, len ≤ 32 → p < 2 ^ len →
      (create_routed_connection b (.net p len) false w).errOf ≠
        some .valueError) ∧
    (∀ a, a < 2 ^ 32 →
      (create_routed_connection b (.host a) false w).errOf ≠
        some .valueError) := by
  refine ⟨rfl, ?_, ?_⟩
  · intro p len h1 h2
    exact create_routed_connection_no_value_error b _ w (p, len)
      (by simp [ipNetwork, h1, h2])
  · intro a ha
    have ha2 : a < 4294967296 := by simpa using ha
    exact create_routed_connection_no_value_error b _ w (a, 32)
      (by simp [ipNetwork, ha2])

/-- Witness for C7 amended: the range `1.0.0.0/8` and the host `1.1.1.1`
at a concrete behaviour/world. -/
theorem C7_amended_parse_errors_witness :
    (create_routed_connection bAllAbsent (.net 1 8) false
      (world0 ⟨⟨false, false⟩, ⟨false, false⟩⟩ ⟨false, false, false, false⟩ 0)).errOf ≠
        some .valueError ∧
    (create_routed_connection bAllAbsent (.host 16843009) false
      (world0 ⟨⟨false, false⟩, ⟨false, false⟩⟩ ⟨false, false, false, false⟩ 0)).errOf ≠
        some .valueError :=
  ⟨(C7_amended_parse_errors bAllAbsent
      (world0 ⟨⟨false, false⟩, ⟨false, false⟩⟩ ⟨false, false, false, false⟩ 0)).2.1
        1 8 (by decide) (by decide),
   (C7_amended_parse_errors bAllAbsent
      (world0 ⟨⟨false, false⟩, ⟨false, false⟩⟩ ⟨false, false, false, false⟩ 0)).2.2
        16843009 (by decide)⟩

/-! ## Claim C6: the routes-first / addresses-fallback strategy choice -/

theorem create_routed_true_log (b : Behaviour) (a : Nat)
    (ha2 : a < 4294967296) (w : World) :
    ∃ δ, (create_routed_true b (.host a) w).world.log = w.log ++ δ ∧
      (∀ s2 C2, Call.createRouted s2 C2 ∈ δ →
        s2 = true ∧ C2 = addressExclude a 32) ∧
      ((b.report w.idx w.plat).routedExists = false →
        Call.createRouted true (addressExclude a 32) ∈ δ) := by
  have hip : ipNetwork (.host a) = .ok (a, 32) := by simp [ipNetwork, ha2]
  have hrun : create_routed_true b (.host a) w =
      tryCatchM (create_routed_attempt b (addressExclude a 32) true)
        (fun e =>
          match e with
          | .createRouted r => throwE (.createRouted r)
          | e1 => throwE e1) w := by
    unfold create_routed_true
    rw [hip]
  rw [hrun, tryCatchM_apply]
  by_cases h1 : (b.report w.idx w.plat).routedExists = true
  · have hatt : create_routed_attempt b (addressExclude a 32) true w =
        .ok () (refreshW b w) := by
      unfold create_routed_attempt
      rw [create_connection_apply]
      simp [trackerExists, h1]
    rw [hatt]
    refine ⟨[.refresh], by simp [refreshW, logIdxW, Outcome.world], ?_, ?_⟩
    · intro s2 C2 hmem
      simp at hmem
    · intro hfalse
      rw [h1] at hfalse
      exact absurd hfalse (by simp)
  · have h1f : (b.report w.idx w.plat).routedExists = false := by simpa using h1
    by_cases hrc : b.rc (w.idx + 1) ≠ 0 ∧ b.rc (w.idx + 1) ≠ 10
    · have hatt : create_routed_attempt b (addressExclude a 32) true w =
          .err (.createRouted (b.rc (w.idx + 1)))
            (logIdxW (.createRouted true (addressExclude a 32)) (refreshW b w)) := by
        unfold create_routed_attempt
        rw [create_connection_apply]
        simp only [trackerExists, h1f, Bool.false_eq_true, if_false,
          run_subprocess_apply, refreshW, logIdxW]
        rw [if_pos hrc]
      rw [hatt]
      refine ⟨[.refresh, .createRouted true (addressExclude a 32)],
        by simp [throwE, refreshW, logIdxW, Outcome.world], ?_, ?_⟩
      · intro s2 C2 hmem
        simp at hmem
        exact hmem
      · intro _
        simp
    · have hatt : create_routed_attempt b (addressExclude a 32) true w =
          .ok () (platW (createEff .routed)
            (logIdxW (.createRouted true (addressExclude a 32)) (refreshW b w))) := by
        unfold create_routed_attempt
        rw [create_connection_apply]
        simp only [trackerExists, h1f, Bool.false_eq_true, if_false,
          run_subprocess_apply, refreshW, logIdxW]
        rw [if_neg hrc]
      rw [hatt]
      refine ⟨[.refresh, .createRouted true (addressExclude a 32)],
        by simp [platW, refreshW, logIdxW, Outcome.world], ?_, ?_⟩
      · intro s2 C2 hmem
        simp at hmem
        exact hmem
      · intro _
        simp

/-- C6: when creating the Routed construct the routes strategy is
attempted first; the addresses fallback (`try_route_addrs=True`) is
entered if and only if that first create CLI call fails with the one
recognized rejection code, process exit code 2; any other create failure
is raised to the caller with no fallback attempt; and every fallback
create command carries the same complement set `addressExclude a 32` as
the first command. -/
theorem C6_routes_fallback (b : Behaviour) (w : World) (a : Nat)
    (ha : a < 2 ^ 32) :
    ((b.report w.idx w.plat).routedExists = true →
      create_routed_connection b (.host a) false w = .ok () (refreshW b w)) ∧
    ((b.report w.idx w.plat).routedExists = false →
     ¬(b.rc (w.idx + 1) ≠ 0 ∧ b.rc (w.idx + 1) ≠ 10) →
      create_routed_connection b (.host a) false w =
        .ok () (platW (createEff .routed)
          (logIdxW (.createRouted false (addressExclude a 32)) (refreshW b w)))) ∧
    ((b.report w.idx w.plat).routedExists = false → b.rc (w.idx + 1) = 2 →
      create_routed_connection b (.host a) false w =
        create_routed_true b (.host a)
          (logIdxW (.createRouted false (addressExclude a 32)) (refreshW b w)) ∧
      ∃ δ, (create_routed_connection b (.host a) false w).world.log =
          (w.log ++ [.refresh, .createRouted false (addressExclude a 32)]) ++ δ ∧
        (∀ s2 C2, Call.createRouted s2 C2 ∈ δ →
          s2 = true ∧ C2 = addressExclude a 32) ∧
        ((b.report (w.idx + 2) w.plat).routedExists = false →
          Call.createRouted true (addressExclude a 32) ∈ δ)) ∧
    ((b.report w.idx w.plat).routedExists = false →
      b.rc (w.idx + 1) ≠ 0 → b.rc (w.idx + 1) ≠ 10 → b.rc (w.idx + 1) ≠ 2 →
      create_routed_connection b (.host a) false w =
        .err (.createRouted (b.rc (w.idx + 1)))
          (logIdxW (.createRouted false (addressExclude a 32)) (refreshW b w))) := by
  have ha2 : a < 4294967296 := by simpa using ha
  have hip : ipNetwork (.host a) = .ok (a, 32) := by simp [ipNetwork, ha2]
  have hrun : create_routed_connection b (.host a) false w =
      tryCatchM (create_routed_attempt b (addressExclude a 32) false)
        (fun e =>
          match e with
          | .createRouted r => if r = 2 then create_routed_true b (.host a)
              else throwE (.createRouted r)
          | e1 => throwE e1) w := by
    unfold create_routed_connection
    rw [if_neg (by simp), hip]
  refine ⟨?_, ?_, ?_, ?_⟩
  · intro h1
    have hatt : create_routed_attempt b (addressExclude a 32) false w =
        .ok () (refreshW b w) := by
      unfold create_routed_attempt
      rw [create_connection_apply]
      simp [trackerExists, h1]
    rw [hrun, tryCatchM_apply, hatt]
  · intro h1 h2
    have hatt : create_routed_attempt b (addressExclude a 32) false w =
        .ok () (platW (createEff .routed)
          (logIdxW (.createRouted false (addressExclude a 32)) (refreshW b w))) := by
      unfold create_routed_attempt
      rw [create_connection_apply]
      simp only [trackerExists, h1, Bool.false_eq_true, if_false,
        run_subprocess_apply, refreshW, logIdxW]
      rw [if_neg h2]
    rw [hrun, tryCatchM_apply, hatt]
  · intro h1 h2
    have hatt : create_routed_attempt b (addressExclude a 32) false w =
        .err (.createRouted 2)
          (logIdxW (.createRouted false (addressExclude a 32)) (refreshW b w)) := by
      unfold create_routed_attempt
      rw [create_connection_apply]
      simp only [trackerExists, h1, Bool.false_eq_true, if_false,
        run_subprocess_apply, refreshW, logIdxW, h2]
      rw [if_pos (by omega)]
    have hfb : create_routed_connection b (.host a) false w =
        create_routed_true b (.host a)
          (logIdxW (.createRouted false (addressExclude a 32)) (refreshW b w)) := by
      rw [hrun, tryCatchM_apply, hatt]
      rfl
    refine ⟨hfb, ?_⟩
    obtain ⟨δ, hδ, hp, hm⟩ := create_routed_true_log b a ha2
      (logIdxW (.createRouted false (addressExclude a 32)) (refreshW b w))
    refine ⟨δ, ?_, hp, ?_⟩
    · rw [hfb, hδ]
      simp [logIdxW, refreshW]
    · intro hr
      apply hm
      simpa [logIdxW, refreshW, idx_add_two] using hr
  · intro h1 h2 h3 h4
    have hatt : create_routed_attempt b (addressExclude a 32) false w =
        .err (.createRouted (b.rc (w.idx + 1)))
          (logIdxW (.createRouted false (addressExclude a 32)) (refreshW b w)) := by
      unfold create_routed_attempt
      rw [create_connection_apply]
      simp only [trackerExists, h1, Bool.false_eq_true, if_false,
        run_subprocess_apply, refreshW, logIdxW]
      rw [if_pos ⟨h2, h3⟩]
    rw [hrun, tryCatchM_apply, hatt]
    show (if b.rc (w.idx + 1) = 2 then _ else throwE (.createRouted (b.rc (w.idx + 1)))) _ = _
    rw [if_neg h4]
    rfl

/-- Witness for C6: with a behaviour whose first create CLI call exits 2
and a concrete world, the engine enters the addresses fallback. -/
theorem C6_routes_fallback_witness :
    create_routed_connection bFallback (.host 1) false
        (world0 ⟨⟨false, false⟩, ⟨false, false⟩⟩ ⟨false, false, false, false⟩ 0) =
      create_routed_true bFallback (.host 1)
        (logIdxW (.createRouted false (addressExclude 1 32)) (refreshW bFallback
          (world0 ⟨⟨false, false⟩, ⟨false, false⟩⟩ ⟨false, false, false, false⟩ 0))) :=
  ((C6_routes_fallback bFallback
      (world0 ⟨⟨false, false⟩, ⟨false, false⟩⟩ ⟨false, false, false, false⟩ 0) 1
      (by decide)).2.2.1 rfl rfl).1

/-- Witness for C5 at the concrete host 5 and probe address 7. -/
theorem C5_planRouted_partition_witness :
    (∀ blk ∈ addressExclude 5 32, ¬ inBlock 5 blk) ∧
    ((7 : Nat) ≠ 5 → ∃ blk ∈ addressExclude 5 32, inBlock 7 blk) ∧
    (∀ b1 ∈ addressExclude 5 32, ∀ b2 ∈ addressExclude 5 32,
      inBlock 7 b1 → inBlock 7 b2 → b1 = b2) :=
  C5_planRouted_partition 5 7 (by decide) (by decide)

/-! ## Claim C1: pre-connection happy path -/

/-- C1: starting from any state in which the Blocking construct is
running and the Routed construct is absent, the pre-connection procedure
under the ideal adapter converges in exactly one attempt (ghost attempt
list `[0]`, no retry recursion) to the state where the Blocking
construct is inactive and the Routed construct is active; the call log
shows the Routed construct created (and activated, via the create
command) strictly before the Blocking construct is deactivated. -/
theorem C1_pre_happy (bp : Bool) (t : Tracker) (n : Nat) (a : Nat)
    (ha : a < 2 ^ 32) :
    setup_pre_connection_ks ideal (.host a) 0
        ⟨⟨⟨bp, true⟩, ⟨false, false⟩⟩, t, [], n, [], []⟩ =
      .ok () ⟨⟨⟨bp, false⟩, ⟨true, true⟩⟩, ⟨bp, true, true, true⟩,
        [.refresh, .refresh, .createRouted false (addressExclude a 32),
         .refresh, .search .ks, .dbusDeactivate .ks],
        n + 6, [0],
        [⟨⟨bp, true⟩, ⟨true, true⟩⟩, ⟨⟨bp, false⟩, ⟨true, true⟩⟩]⟩ := by
  have ha2 : a < 4294967296 := by simpa using ha
  have hip : ipNetwork (.host a) = .ok (a, 32) := by simp [ipNetwork, ha2]
  show setup_pre_connection_ks_aux ideal (.host a) (4 + 1) 0
      ⟨⟨⟨bp, true⟩, ⟨false, false⟩⟩, t, [], n, [], []⟩ = _
  simp only [setup_pre_connection_ks_aux, update_connection_status,
    noteAttempt, logCall, nextIdx, modifyW, getW, M.pure, Pure.pure, pure,
    Bind.bind, bind, M.bind, ideal, idealReport, create_routed_connection,
    create_routed_attempt, create_routed_true, create_connection,
    run_subprocess, tryCatchM, deactivate_connection, activate_connection,
    delete_connection, create_killswitch_connection, setPlat, throwE,
    trackerExists, trackerRunning, setRunning, setConn, getConn, createEff,
    deleteEff, hip, Bool.and_self, Bool.not_false, Bool.not_true,
    Bool.and_true, Bool.and_false, Bool.true_and, Bool.false_and, if_true,
    if_false, Bool.false_eq_true, Bool.true_eq_false, List.append_assoc,
    List.nil_append, List.cons_append, List.singleton_append, ne_eq,
    eq_self_iff_true, not_true, false_and, and_false, not_false_iff,
    true_and, and_true]

/-- Witness for C1 at the concrete starting state with the Blocking
construct present and running and server address 1.1.1.1. -/
theorem C1_pre_happy_witness :
    setup_pre_connection_ks ideal (.host 16843009) 0
        ⟨⟨⟨true, true⟩, ⟨false, false⟩⟩, ⟨false, false, false, false⟩, [], 0, [], []⟩ =
      .ok () ⟨⟨⟨true, false⟩, ⟨true, true⟩⟩, ⟨true, true, true, true⟩,
        [.refresh, .refresh, .createRouted false (addressExclude 16843009 32),
         .refresh, .search .ks, .dbusDeactivate .ks],
        0 + 6, [0],
        [⟨⟨true, true⟩, ⟨true, true⟩⟩, ⟨⟨true, false⟩, ⟨true, true⟩⟩]⟩ :=
  C1_pre_happy true ⟨false, false, false, false⟩ 0 16843009 (by decide)

/-! ## Claim C2: post-connection make-before-break -/

/-- C2 counterexample: the claim quantifies over every starting state in
which the Blocking construct is not active and the Routed construct is
active.  Starting from one such state — the Blocking construct does not
exist at all (`⟨false, false⟩`) while the Routed construct is present
and running — the post-connection procedure under the ideal adapter
silently skips the activation (`_activate_connection` no-ops when the
tracker says the connection does not exist), deletes the Routed
construct anyway, raises no error, and ends with zero active
constructs: the Blocking construct was never activated, neither before
nor after the delete. -/
theorem C2_counterexample :
    (setup_post_connection_ks ideal 0 false
      (world0 ⟨⟨false, false⟩, ⟨true, true⟩⟩ ⟨false, false, false, false⟩ 0)).errOf
        = none ∧
    (setup_post_connection_ks ideal 0 false
      (world0 ⟨⟨false, false⟩, ⟨true, true⟩⟩ ⟨false, false, false, false⟩ 0)).world.plat.ksConn.running
        = false ∧
    (setup_post_connection_ks ideal 0 false
      (world0 ⟨⟨false, false⟩, ⟨true, true⟩⟩ ⟨false, false, false, false⟩ 0)).world.plat.routedConn.running
        = false ∧
    Call.dbusActivate .ks ∉
      (setup_post_connection_ks ideal 0 false
        (world0 ⟨⟨false, false⟩, ⟨true, true⟩⟩ ⟨false, false, false, false⟩ 0)).world.log ∧
    Call.runDelete .routed ∈
      (setup_post_connection_ks ideal 0 false
        (world0 ⟨⟨false, false⟩, ⟨true, true⟩⟩ ⟨false, false, false, false⟩ 0)).world.log := by
  decide

/-- C2 amended: for every starting state in which the Blocking construct
exists but is not active and the Routed construct exists and is active,
the post-connection procedure under the ideal adapter activates the
Blocking construct strictly before deleting the Routed construct, and
every ground-truth platform state along the run — the start state and
each state recorded after a successful mutation — has at least one
construct active (make-before-break).  When the Blocking construct does
not exist the activate step is silently skipped and the run ends with
zero active constructs (see the counterexample). -/
theorem C2_post_make_before_break (t : Tracker) (n : Nat) :
    setup_post_connection_ks ideal 0 false
        ⟨⟨⟨true, false⟩, ⟨true, true⟩⟩, t, [], n, [], []⟩ =
      .ok () ⟨⟨⟨true, true⟩, ⟨false, false⟩⟩, ⟨true, true, true, true⟩,
        [.refresh, .refresh, .search .ks, .dbusActivate .ks,
         .refresh, .runDelete .routed],
        n + 6, [0],
        [⟨⟨true, true⟩, ⟨true, true⟩⟩, ⟨⟨true, true⟩, ⟨false, false⟩⟩]⟩ ∧
    ∀ p ∈ (⟨⟨true, false⟩, ⟨true, true⟩⟩ : Platform) ::
        [(⟨⟨true, true⟩, ⟨true, true⟩⟩ : Platform),
         ⟨⟨true, true⟩, ⟨false, false⟩⟩],
      p.ksConn.running = true ∨ p.routedConn.running = true := by
  constructor
  · show setup_post_connection_ks_aux ideal false (4 + 1) 0
        ⟨⟨⟨true, false⟩, ⟨true, true⟩⟩, t, [], n, [], []⟩ = _
    simp only [setup_post_connection_ks_aux, update_connection_status,
      noteAttempt, logCall, nextIdx, modifyW, getW, M.pure, Pure.pure, pure,
      Bind.bind, bind, M.bind, ideal, idealReport, create_routed_connection,
      create_routed_attempt, create_routed_true, create_connection,
      run_subprocess, tryCatchM, deactivate_connection, activate_connection,
      delete_connection, create_killswitch_connection, setPlat, throwE,
      trackerExists, trackerRunning, setRunning, setConn, getConn, createEff,
      deleteEff, Bool.and_self, Bool.not_false, Bool.not_true,
      Bool.and_true, Bool.and_false, Bool.true_and, Bool.false_and, if_true,
      if_false, Bool.false_eq_true, Bool.true_eq_false, List.append_assoc,
      List.nil_append, List.cons_append, List.singleton_append, ne_eq,
      eq_self_iff_true, not_true, false_and, and_false, not_false_iff,
      true_and, and_true]
  · decide

/-! ## Steady operations: attempts-preservation, log monotonicity, and
absence of the exhaustion error for every primitive operation -/

theorem bind_apply_ok {α β : Type} {x : M α} {f : α → M β} {w w1 : World}
    {u : α} (h : x w = .ok u w1) : (x >>= f) w = f u w1 := by
  show M.bind x f w = _
  unfold M.bind
  rw [h]

theorem bind_apply_err {α β : Type} {x : M α} {f : α → M β} {w w1 : World}
    {e : Err} (h : x w = .err e w1) : (x >>= f) w = .err e w1 := by
  show M.bind x f w = _
  unfold M.bind
  rw [h]

/-- An operation is steady when it preserves the ghost attempts list,
only appends to the call log, and never raises the exhaustion error. -/
def Steady (m : M Unit) : Prop :=
  ∀ w, (m w).world.attempts = w.attempts ∧
    (∃ δ, (m w).world.log = w.log ++ δ) ∧
    (m w).errOf ≠ some .exhausted

theorem Steady.seq {x y : M Unit} (hx : Steady x) (hy : Steady y) :
    Steady (x >>= fun _ => y) := by
  intro w
  rcases h : x w with ⟨u, w1⟩ | ⟨e, w1⟩
  · obtain ⟨ha1, ⟨δ1, hl1⟩, _⟩ := hx w
    rw [h] at ha1 hl1
    simp only [Outcome.world] at ha1 hl1
    obtain ⟨ha2, ⟨δ2, hl2⟩, he2⟩ := hy w1
    rw [bind_apply_ok h]
    exact ⟨by rw [ha2, ha1], ⟨δ1 ++ δ2, by rw [hl2, hl1, List.append_assoc]⟩,
      he2⟩
  · obtain ⟨ha1, ⟨δ1, hl1⟩, he1⟩ := hx w
    rw [h] at ha1 hl1 he1
    simp only [Outcome.world] at ha1 hl1
    rw [bind_apply_err h]
    exact ⟨ha1, ⟨δ1, hl1⟩, he1⟩

theorem Steady.ite {c : Prop} [Decidable c] {x y : M Unit} (hx : Steady x)
    (hy : Steady y) : Steady (if c then x else y) := by
  split
  · exact hx
  · exact hy

theorem Steady.pure : Steady (M.pure ()) := by
  intro w
  exact ⟨rfl, ⟨[], by simp [M.pure, Outcome.world]⟩, by simp [M.pure, Outcome.errOf]⟩

theorem Steady.throw {e : Err} (he : e ≠ .exhausted) : Steady (throwE e) := by
  intro w
  refine ⟨rfl, ⟨[], by simp [throwE, Outcome.world]⟩, ?_⟩
  simp only [throwE, Outcome.errOf, ne_eq, Option.some_inj]
  exact he

theorem Steady.tryCatch {x : M Unit} {hd : Err → M Unit} (hx : Steady x)
    (hh : ∀ e, e ≠ .exhausted → Steady (hd e)) : Steady (tryCatchM x hd) := by
  intro w
  rw [tryCatchM_apply]
  rcases h : x w with ⟨u, w1⟩ | ⟨e, w1⟩
  · obtain ⟨ha1, ⟨δ1, hl1⟩, _⟩ := hx w
    rw [h] at ha1 hl1
    simp only [Outcome.world] at ha1 hl1
    exact ⟨ha1, ⟨δ1, hl1⟩, by simp [Outcome.errOf]⟩
  · obtain ⟨ha1, ⟨δ1, hl1⟩, he1⟩ := hx w
    rw [h] at ha1 hl1 he1
    simp only [Outcome.world] at ha1 hl1
    have he : e ≠ .exhausted := by
      simp only [Outcome.errOf, ne_eq, Option.some_inj] at he1
      exact he1
    obtain ⟨ha2, ⟨δ2, hl2⟩, he2⟩ := hh e he w1
    exact ⟨by rw [ha2, ha1], ⟨δ1 ++ δ2, by rw [hl2, hl1, List.append_assoc]⟩,
      he2⟩

theorem steady_update (b : Behaviour) : Steady (update_connection_status b) := by
  intro w
  rw [update_connection_status_apply]
  exact ⟨rfl, ⟨[.refresh], rfl⟩, by simp [Outcome.errOf]⟩

theorem steady_run_subprocess (b : Behaviour) (mk : Nat → Err) (ev : Call)
    (eff : Platform → Platform) (hmk : ∀ r, mk r ≠ .exhausted) :
    Steady (run_subprocess b mk ev eff) := by
  intro w
  rw [run_subprocess_apply]
  split
  · exact ⟨rfl, ⟨[ev], rfl⟩, by simp [Outcome.errOf, hmk]⟩
  · exact ⟨rfl, ⟨[ev], rfl⟩, by simp [Outcome.errOf]⟩

theorem steady_create_connection (b : Behaviour) (c : Conn) (ev : Call)
    (mk : Nat → Err) (hmk : ∀ r, mk r ≠ .exhausted) :
    Steady (create_connection b c ev mk) := by
  intro w
  rw [create_connection_apply]
  split
  · exact ⟨rfl, ⟨[.refresh], rfl⟩, by simp [Outcome.errOf]⟩
  · obtain ⟨ha1, ⟨δ1, hl1⟩, he1⟩ :=
      steady_run_subprocess b mk ev (createEff c) hmk (refreshW b w)
    refine ⟨ha1, ⟨[.refresh] ++ δ1, ?_⟩, he1⟩
    rw [hl1]
    simp [refreshW, logIdxW]

theorem steady_create_killswitch (b : Behaviour) :
    Steady (create_killswitch_connection b) := by
  intro w
  rw [create_killswitch_connection_apply]
  split
  · exact ⟨rfl, ⟨[.refresh], rfl⟩, by simp [Outcome.errOf]⟩
  · obtain ⟨ha1, ⟨δ1, hl1⟩, he1⟩ :=
      steady_create_connection b .ks .createBlocking
        (fun r => .createBlocking r) (by intro r; simp) (refreshW b w)
    refine ⟨ha1, ⟨[.refresh] ++ δ1, ?_⟩, he1⟩
    rw [hl1]
    simp [refreshW, logIdxW]

theorem steady_activate (b : Behaviour) (c : Conn) :
    Steady (activate_connection b c) := by
  intro w
  rw [activate_connection_apply]
  split
  · split
    · exact ⟨rfl, ⟨[.refresh, .search c, .dbusActivate c],
        by simp [platW, logIdxW, refreshW, Outcome.world]⟩,
        by simp [Outcome.errOf]⟩
    · exact ⟨rfl, ⟨[.refresh, .search c, .dbusActivate c],
        by simp [logIdxW, refreshW, Outcome.world]⟩,
        by simp [Outcome.errOf]⟩
  · exact ⟨rfl, ⟨[.refresh, .search c],
      by simp [logIdxW, refreshW, Outcome.world]⟩, by simp [Outcome.errOf]⟩

theorem steady_deactivate (b : Behaviour) (c : Conn) :
    Steady (deactivate_connection b c) := by
  intro w
  rw [deactivate_connection_apply]
  split
  · split
    · exact ⟨rfl, ⟨[.refresh, .search c, .dbusDeactivate c],
        by simp [platW, logIdxW, refreshW, Outcome.world]⟩,
        by simp [Outcome.errOf]⟩
    · exact ⟨rfl, ⟨[.refresh, .search c, .dbusDeactivate c],
        by simp [logIdxW, refreshW, Outcome.world]⟩,
        by simp [Outcome.errOf]⟩
  · exact ⟨rfl, ⟨[.refresh, .search c],
      by simp [logIdxW, refreshW, Outcome.world]⟩, by simp [Outcome.errOf]⟩

theorem steady_delete (b : Behaviour) (c : Conn) :
    Steady (delete_connection b c) := by
  intro w
  rw [delete_connection_apply]
  split
  · obtain ⟨ha1, ⟨δ1, hl1⟩, he1⟩ :=
      steady_run_subprocess b (fun r => .deleteConn r) (.runDelete c)
        (deleteEff c) (by intro r; simp) (refreshW b w)
    refine ⟨ha1, ⟨[.refresh] ++ δ1, ?_⟩, he1⟩
    rw [hl1]
    simp [refreshW, logIdxW]
  · exact ⟨rfl, ⟨[.refresh], rfl⟩, by simp [Outcome.errOf]⟩

theorem steady_create_routed_attempt (b : Behaviour)
    (comp : List (Nat × Nat)) (flag : Bool) :
    Steady (create_routed_attempt b comp flag) :=
  steady_create_connection b .routed (.createRouted flag comp)
    (fun r => .createRouted r) (by intro r; simp)

theorem steady_create_routed_true (b : Behaviour) (s : AddrInput) :
    Steady (create_routed_true b s) := by
  unfold create_routed_true
  rcases hip : ipNetwork s with u | net
  · apply Steady.throw
    simp
  · apply Steady.tryCatch (steady_create_routed_attempt b _ true)
    intro e he
    cases e
    case exhausted => exact absurd rfl he
    all_goals (apply Steady.throw; simp)

theorem steady_create_routed (b : Behaviour) (s : AddrInput) (flag : Bool) :
    Steady (create_routed_connection b s flag) := by
  unfold create_routed_connection
  split
  · exact steady_create_routed_true b s
  · rcases hip : ipNetwork s with u | net
    · apply Steady.throw
      simp
    · apply Steady.tryCatch (steady_create_routed_attempt b _ false)
      intro e he
      cases e
      case exhausted => exact absurd rfl he
      case createRouted r =>
        apply Steady.ite (steady_create_routed_true b s)
        apply Steady.throw
        simp
      all_goals (apply Steady.throw; simp)

theorem steady_out {m : M Unit} (hm : Steady m) {w w1 : World} {u : Unit}
    (h : m w = .ok u w1) :
    w1.attempts = w.attempts ∧ ∃ δ, w1.log = w.log ++ δ := by
  obtain ⟨ha, ⟨δ, hl⟩, _⟩ := hm w
  rw [h] at ha hl
  simp only [Outcome.world] at ha hl
  exact ⟨ha, δ, hl⟩

theorem steady_err {m : M Unit} (hm : Steady m) {w w1 : World} {e : Err}
    (h : m w = .err e w1) :
    w1.attempts = w.attempts ∧ (∃ δ, w1.log = w.log ++ δ) ∧ e ≠ .exhausted := by
  obtain ⟨ha, ⟨δ, hl⟩, he⟩ := hm w
  rw [h] at ha hl he
  simp only [Outcome.world] at ha hl
  refine ⟨ha, ⟨δ, hl⟩, ?_⟩
  simp only [Outcome.errOf, ne_eq, Option.some_inj] at he
  exact he

theorem pre_aux_succ_apply (b : Behaviour) (s : AddrInput) (fuel k : Nat)
    (w : World) :
    setup_pre_connection_ks_aux b s (fuel + 1) k w =
      (if (noteW k (refreshW b w)).tracker.ksRunning &&
          !(noteW k (refreshW b w)).tracker.routedExists then
        (create_routed_connection b s false >>= fun _ =>
          deactivate_connection b .ks)
      else if !(noteW k (refreshW b w)).tracker.ksRunning &&
          (noteW k (refreshW b w)).tracker.routedRunning then
        M.pure ()
      else
        ((if (noteW k (refreshW b w)).tracker.routedExists &&
            (noteW k (refreshW b w)).tracker.routedRunning then
          delete_connection b .routed
        else M.pure ()) >>= fun _ =>
          getW >>= fun w2 =>
          (if w2.tracker.ksExists then activate_connection b .ks
           else create_killswitch_connection b) >>= fun _ =>
          setup_pre_connection_ks_aux b s fuel (k + 1)))
        (noteW k (refreshW b w)) := by
  conv_lhs => rw [setup_pre_connection_ks_aux]
  rfl

theorem pre_aux_run (b : Behaviour) (s : AddrInput) :
    ∀ fuel k w,
      ∃ δa δl,
        ((setup_pre_connection_ks_aux b s fuel k) w).world.attempts =
          w.attempts ++ δa ∧
        ((setup_pre_connection_ks_aux b s fuel k) w).world.log =
          w.log ++ δl ∧
        δa.length ≤ fuel ∧
        (((setup_pre_connection_ks_aux b s fuel k) w).errOf =
          some .exhausted → δa = List.range' k fuel) := by
  intro fuel
  induction fuel with
  | zero =>
    intro k w
    have h0 : setup_pre_connection_ks_aux b s 0 k w =
        .err .exhausted (refreshW b w) := rfl
    rw [h0]
    exact ⟨[], [.refresh], by simp [refreshW, logIdxW, Outcome.world],
      by simp [refreshW, logIdxW, Outcome.world], by simp, fun _ => rfl⟩
  | succ fuel ih =>
    intro k w
    rw [pre_aux_succ_apply]
    have hmwa : (noteW k (refreshW b w)).attempts = w.attempts ++ [k] := rfl
    have hmwl : (noteW k (refreshW b w)).log = w.log ++ [.refresh] := rfl
    by_cases c1 : ((noteW k (refreshW b w)).tracker.ksRunning &&
        !(noteW k (refreshW b w)).tracker.routedExists) = true
    · rw [if_pos c1]
      obtain ⟨ha, ⟨δ, hl⟩, he⟩ :=
        ((steady_create_routed b s false).seq (steady_deactivate b .ks))
          (noteW k (refreshW b w))
      refine ⟨[k], [.refresh] ++ δ, ?_, ?_, by simp, fun hexh => absurd hexh he⟩
      · rw [ha, hmwa]
      · rw [hl, hmwl, List.append_assoc]
    · rw [if_neg c1]
      by_cases c2 : (!(noteW k (refreshW b w)).tracker.ksRunning &&
          (noteW k (refreshW b w)).tracker.routedRunning) = true
      · rw [if_pos c2]
        refine ⟨[k], [.refresh], ?_, ?_, by simp, ?_⟩
        · show (noteW k (refreshW b w)).attempts = _
          rw [hmwa]
        · show (noteW k (refreshW b w)).log = _
          rw [hmwl]
        · intro hexh
          simp [M.pure, Outcome.errOf] at hexh
      · rw [if_neg c2]
        have hst3 : Steady (if (noteW k (refreshW b w)).tracker.routedExists &&
            (noteW k (refreshW b w)).tracker.routedRunning then
            delete_connection b .routed else M.pure ()) :=
          Steady.ite (steady_delete b .routed) Steady.pure
        rcases h3 : (if (noteW k (refreshW b w)).tracker.routedExists &&
            (noteW k (refreshW b w)).tracker.routedRunning then
            delete_connection b .routed else M.pure ())
            (noteW k (refreshW b w)) with ⟨u3, w3⟩ | ⟨e3, w3⟩
        · obtain ⟨ha3, ⟨δ3, hl3⟩⟩ := steady_out hst3 h3
          rw [bind_apply_ok h3, bind_apply_ok (show getW w3 = .ok w3 w3 from rfl)]
          have hst4 : Steady (if w3.tracker.ksExists then
              activate_connection b .ks else create_killswitch_connection b) :=
            Steady.ite (steady_activate b .ks) (steady_create_killswitch b)
          rcases h4 : (if w3.tracker.ksExists then activate_connection b .ks
              else create_killswitch_connection b) w3 with ⟨u4, w4⟩ | ⟨e4, w4⟩
          · obtain ⟨ha4, ⟨δ4, hl4⟩⟩ := steady_out hst4 h4
            rw [bind_apply_ok h4]
            obtain ⟨δa, δl, hra, hrl, hrlen, hrexh⟩ := ih (k + 1) w4
            refine ⟨k :: δa, [.refresh] ++ (δ3 ++ (δ4 ++ δl)), ?_, ?_, ?_, ?_⟩
            · rw [hra, ha4, ha3, hmwa]
              simp
            · rw [hrl, hl4, hl3, hmwl]
              simp
            · simpa using Nat.succ_le_succ hrlen
            · intro hexh
              rw [hrexh hexh, List.range'_succ]
          · obtain ⟨ha4, ⟨δ4, hl4⟩, he4⟩ := steady_err hst4 h4
            rw [bind_apply_err h4]
            refine ⟨[k], [.refresh] ++ (δ3 ++ δ4), ?_, ?_, by simp, ?_⟩
            · show w4.attempts = _
              rw [ha4, ha3, hmwa]
            · show w4.log = _
              rw [hl4, hl3, hmwl]
              simp
            · intro hexh
              simp only [Outcome.errOf, Option.some_inj] at hexh
              exact absurd hexh he4
        · obtain ⟨ha3, ⟨δ3, hl3⟩, he3⟩ := steady_err hst3 h3
          rw [bind_apply_err h3]
          refine ⟨[k], [.refresh] ++ δ3, ?_, ?_, by simp, ?_⟩
          · show w3.attempts = _
            rw [ha3, hmwa]
          · show w3.log = _
            rw [hl3, hmwl, List.append_assoc]
          · intro hexh
            simp only [Outcome.errOf, Option.some_inj] at hexh
            exact absurd hexh he3

theorem post_aux_succ_apply (b : Behaviour) (sc : Bool) (fuel k : Nat)
    (w : World) :
    setup_post_connection_ks_aux b sc (fuel + 1) k w =
      (if !(noteW k (refreshW b w)).tracker.ksRunning &&
          (noteW k (refreshW b w)).tracker.routedRunning then
        (activate_connection b .ks >>= fun _ => delete_connection b .routed)
      else if sc && (!(noteW k (refreshW b w)).tracker.routedRunning ||
          !(noteW k (refreshW b w)).tracker.routedExists) then
        activate_connection b .ks
      else if (noteW k (refreshW b w)).tracker.ksRunning &&
          (!(noteW k (refreshW b w)).tracker.routedExists ||
           !(noteW k (refreshW b w)).tracker.routedRunning) then
        M.pure ()
      else
        ((if (noteW k (refreshW b w)).tracker.ksRunning then
            deactivate_connection b .ks
          else M.pure ()) >>= fun _ =>
          getW >>= fun w2 =>
          if w2.tracker.routedExists then
            activate_connection b .routed >>= fun _ =>
            setup_post_connection_ks_aux b sc fuel (k + 1)
          else throwE .routedMissing))
        (noteW k (refreshW b w)) := by
  conv_lhs => rw [setup_post_connection_ks_aux]
  rfl

theorem post_aux_run (b : Behaviour) (sc : Bool) :
    ∀ fuel k w,
      ∃ δa δl,
        ((setup_post_connection_ks_aux b sc fuel k) w).world.attempts =
          w.attempts ++ δa ∧
        ((setup_post_connection_ks_aux b sc fuel k) w).world.log =
          w.log ++ δl ∧
        δa.length ≤ fuel ∧
        (((setup_post_connection_ks_aux b sc fuel k) w).errOf =
          some .exhausted → δa = List.range' k fuel) := by
  intro fuel
  induction fuel with
  | zero =>
    intro k w
    have h0 : setup_post_connection_ks_aux b sc 0 k w =
        .err .exhausted (refreshW b w) := rfl
    rw [h0]
    exact ⟨[], [.refresh], by simp [refreshW, logIdxW, Outcome.world],
      by simp [refreshW, logIdxW, Outcome.world], by simp, fun _ => rfl⟩
  | succ fuel ih =>
    intro k w
    rw [post_aux_succ_apply]
    have hmwa : (noteW k (refreshW b w)).attempts = w.attempts ++ [k] := rfl
    have hmwl : (noteW k (refreshW b w)).log = w.log ++ [.refresh] := rfl
    by_cases c1 : (!(noteW k (refreshW b w)).tracker.ksRunning &&
        (noteW k (refreshW b w)).tracker.routedRunning) = true
    · rw [if_pos c1]
      obtain ⟨ha, ⟨δ, hl⟩, he⟩ :=
        ((steady_activate b .ks).seq (steady_delete b .routed))
          (noteW k (refreshW b w))
      refine ⟨[k], [.refresh] ++ δ, ?_, ?_, by simp, fun hexh => absurd hexh he⟩
      · rw [ha, hmwa]
      · rw [hl, hmwl, List.append_assoc]
    · rw [if_neg c1]
      by_cases c2 : (sc && (!(noteW k (refreshW b w)).tracker.routedRunning ||
          !(noteW k (refreshW b w)).tracker.routedExists)) = true
      · rw [if_pos c2]
        obtain ⟨ha, ⟨δ, hl⟩, he⟩ := steady_activate b .ks (noteW k (refreshW b w))
        refine ⟨[k], [.refresh] ++ δ, ?_, ?_, by simp, fun hexh => absurd hexh he⟩
        · rw [ha, hmwa]
        · rw [hl, hmwl, List.append_assoc]
      · rw [if_neg c2]
        by_cases c3 : ((noteW k (refreshW b w)).tracker.ksRunning &&
            (!(noteW k (refreshW b w)).tracker.routedExists ||
             !(noteW k (refreshW b w)).tracker.routedRunning)) = true
        · rw [if_pos c3]
          refine ⟨[k], [.refresh], ?_, ?_, by simp, ?_⟩
          · show (noteW k (refreshW b w)).attempts = _
            rw [hmwa]
          · show (noteW k (refreshW b w)).log = _
            rw [hmwl]
          · intro hexh
            simp [M.pure, Outcome.errOf] at hexh
        · rw [if_neg c3]
          have hst3 : Steady (if (noteW k (refreshW b w)).tracker.ksRunning then
              deactivate_connection b .ks else M.pure ()) :=
            Steady.ite (steady_deactivate b .ks) Steady.pure
          rcases h3 : (if (noteW k (refreshW b w)).tracker.ksRunning then
              deactivate_connection b .ks else M.pure ())
              (noteW k (refreshW b w)) with ⟨u3, w3⟩ | ⟨e3, w3⟩
          · obtain ⟨ha3, ⟨δ3, hl3⟩⟩ := steady_out hst3 h3
            rw [bind_apply_ok h3,
              bind_apply_ok (show getW w3 = .ok w3 w3 from rfl)]
            by_cases c4 : w3.tracker.routedExists = true
            · rw [if_pos c4]
              rcases h5 : activate_connection b .routed w3 with
                ⟨u5, w5⟩ | ⟨e5, w5⟩
              · obtain ⟨ha5, ⟨δ5, hl5⟩⟩ := steady_out (steady_activate b .routed) h5
                rw [bind_apply_ok h5]
                obtain ⟨δa, δl, hra, hrl, hrlen, hrexh⟩ := ih (k + 1) w5
                refine ⟨k :: δa, [.refresh] ++ (δ3 ++ (δ5 ++ δl)), ?_, ?_, ?_, ?_⟩
                · rw [hra, ha5, ha3, hmwa]
                  simp
                · rw [hrl, hl5, hl3, hmwl]
                  simp
                · simpa using Nat.succ_le_succ hrlen
                · intro hexh
                  rw [hrexh hexh, List.range'_succ]
              · obtain ⟨ha5, ⟨δ5, hl5⟩, he5⟩ :=
                  steady_err (steady_activate b .routed) h5
                rw [bind_apply_err h5]
                refine ⟨[k], [.refresh] ++ (δ3 ++ δ5), ?_, ?_, by simp, ?_⟩
                · show w5.attempts = _
                  rw [ha5, ha3, hmwa]
                · show w5.log = _
                  rw [hl5, hl3, hmwl]
                  simp
                · intro hexh
                  simp only [Outcome.errOf, Option.some_inj] at hexh
                  exact absurd hexh he5
            · rw [if_neg c4]
              refine ⟨[k], [.refresh] ++ δ3, ?_, ?_, by simp, ?_⟩
              · show w3.attempts = _
                rw [ha3, hmwa]
              · show w3.log = _
                rw [hl3, hmwl, List.append_assoc]
              · intro hexh
                simp [throwE, Outcome.errOf] at hexh
          · obtain ⟨ha3, ⟨δ3, hl3⟩, he3⟩ := steady_err hst3 h3
            rw [bind_apply_err h3]
            refine ⟨[k], [.refresh] ++ δ3, ?_, ?_, by simp, ?_⟩
            · show w3.attempts = _
              rw [ha3, hmwa]
            · show w3.log = _
              rw [hl3, hmwl, List.append_assoc]
            · intro hexh
              simp only [Outcome.errOf, Option.some_inj] at hexh
              exact absurd hexh he3

/-! ## Claim C3: the 5-attempt retry cap -/

/-- C3: for every adapter behaviour, server address, soft flag and
starting world, each convergence procedure performs at most 5 attempts
(the ghost attempts list collects the counter value of every iteration
that passed the cap check); if the run ends in the exhaustion error the
attempts performed are exactly `[0, 1, 2, 3, 4]` — five attempts and no
6th; and a call that arrives at the cap (counter 5) raises the
exhaustion error immediately after its tracker refresh, mutating
nothing.  Termination of the retry recursion is structural (fuel
`5 - attempts`). -/
theorem C3_retry_cap (b : Behaviour) (s : AddrInput) (sc : Bool) (w : World)
    (h0 : w.attempts = []) :
    ((setup_pre_connection_ks b s 0 w).world.attempts.length ≤ 5 ∧
     ((setup_pre_connection_ks b s 0 w).errOf = some .exhausted →
       (setup_pre_connection_ks b s 0 w).world.attempts = [0, 1, 2, 3, 4])) ∧
    ((setup_post_connection_ks b 0 sc w).world.attempts.length ≤ 5 ∧
     ((setup_post_connection_ks b 0 sc w).errOf = some .exhausted →
       (setup_post_connection_ks b 0 sc w).world.attempts = [0, 1, 2, 3, 4])) ∧
    setup_pre_connection_ks b s 5 w = .err .exhausted (refreshW b w) ∧
    setup_post_connection_ks b 5 sc w = .err .exhausted (refreshW b w) := by
  refine ⟨?_, ?_, rfl, rfl⟩
  · have e1 : setup_pre_connection_ks b s 0 w =
        setup_pre_connection_ks_aux b s 5 0 w := rfl
    rw [e1]
    obtain ⟨δa, δl, hra, hrl, hlen, hexh⟩ := pre_aux_run b s 5 0 w
    rw [hra, h0, List.nil_append]
    exact ⟨hlen, fun he => by rw [hexh he]; rfl⟩
  · have e1 : setup_post_connection_ks b 0 sc w =
        setup_post_connection_ks_aux b sc 5 0 w := rfl
    rw [e1]
    obtain ⟨δa, δl, hra, hrl, hlen, hexh⟩ := post_aux_run b sc 5 0 w
    rw [hra, h0, List.nil_append]
    exact ⟨hlen, fun he => by rw [hexh he]; rfl⟩

/-- Witness for C3: the never-converging behaviour `bStuck` exhausts the
pre-connection procedure after exactly the five attempts 0..4. -/
theorem C3_retry_cap_witness :
    (setup_pre_connection_ks bStuck (.host 5) 0
      (world0 ⟨⟨true, true⟩, ⟨false, false⟩⟩ ⟨false, false, false, false⟩ 0)).world.attempts
        = [0, 1, 2, 3, 4] :=
  (C3_retry_cap bStuck (.host 5) false
    (world0 ⟨⟨true, true⟩, ⟨false, false⟩⟩ ⟨false, false, false, false⟩ 0)
    rfl).1.2 (by
      show (setup_pre_connection_ks_aux bStuck (.host 5) (4 + 1) 0
        (world0 ⟨⟨true, true⟩, ⟨false, false⟩⟩
          ⟨false, false, false, false⟩ 0)).errOf = _
      simp only [setup_pre_connection_ks_aux, update_connection_status,
        noteAttempt, logCall, nextIdx, modifyW, getW, M.pure, Pure.pure, pure,
        Bind.bind, bind, M.bind, bStuck, create_routed_connection,
        create_routed_attempt, create_routed_true, create_connection,
        run_subprocess, tryCatchM, deactivate_connection, activate_connection,
        delete_connection, create_killswitch_connection, setPlat, throwE,
        trackerExists, trackerRunning, setRunning, setConn, getConn, createEff,
        deleteEff, Bool.and_self, Bool.not_false, Bool.not_true,
        Bool.and_true, Bool.and_false, Bool.true_and, Bool.false_and, if_true,
        if_false, Bool.false_eq_true, Bool.true_eq_false, List.append_assoc,
        List.nil_append, List.cons_append, List.singleton_append, ne_eq,
        eq_self_iff_true, not_true, false_and, and_false, not_false_iff,
        true_and, and_true, Outcome.errOf])

/-! ## Claim C4: probe suppression before construct mutations -/

/-- C4 counterexample: the claim asserts that probe suppression runs
before the first construct mutation in every reconciliation action,
including the soft-enable path entered via `enable(permanent=False)`.
On that path the code calls `_setup_soft_connection()` directly, with no
probe-suppression guard: the run creates the Blocking construct (a
mutation) while no connectivity-check read or write appears anywhere in
the call log. -/
theorem C4_counterexample :
    Call.createBlocking ∈ (enable bAllAbsent false
      (world0 ⟨⟨false, false⟩, ⟨false, false⟩⟩ ⟨false, false, false, false⟩ 0)).world.log ∧
    Call.probeRead ∉ (enable bAllAbsent false
      (world0 ⟨⟨false, false⟩, ⟨false, false⟩⟩ ⟨false, false, false, false⟩ 0)).world.log ∧
    Call.probeSet ∉ (enable bAllAbsent false
      (world0 ⟨⟨false, false⟩, ⟨false, false⟩⟩ ⟨false, false, false, false⟩ 0)).world.log := by
  decide

theorem ensure_log (b : Behaviour) (w : World) :
    ∃ δ, (ensure_connectivity_check_is_disabled b w).world.log = w.log ++ δ ∧
      δ.head? = some .probeRead ∧
      ∀ c ∈ δ, c = .probeRead ∨ c = .probeSet := by
  rw [ensure_connectivity_check_apply]
  split
  · exact ⟨[.probeRead], by simp [logIdxW, Outcome.world], rfl, by decide⟩
  · split
    · exact ⟨[.probeRead], by simp [logIdxW, Outcome.world], rfl, by decide⟩
    · split
      · exact ⟨[.probeRead, .probeSet, .probeRead],
          by simp [logIdxW, Outcome.world], rfl, by decide⟩
      · exact ⟨[.probeRead, .probeSet, .probeRead],
          by simp [logIdxW, Outcome.world], rfl, by decide⟩

/-- C4 amended: in every reconciliation action dispatched through
`_manage` (PreConnection, PostConnection, SoftEnable, Disable), if any
construct-mutating adapter call occurs, then the probe-suppression guard
ran to successful completion first: its calls — starting with a
connectivity-check read and consisting only of probe reads/writes, no
mutation among them — form a prefix of the call log, and everything else
comes after.  (For SoftEnable the `_manage` dispatch itself raises a
`TypeError` on arity before any step.)  The claim fails only on the
soft-enable path entered via `enable(permanent=False)`, which performs
no probe suppression at all — see the counterexample. -/
theorem C4_probe_before_mutation (b : Behaviour) (act : KSAction)
    (s : AddrInput) (w : World) (h0 : w.log = []) :
    (∃ c ∈ (manage b act s w).world.log, c.isMutation = true) →
    ∃ w1, ensure_connectivity_check_is_disabled b w = .ok () w1 ∧
      (∀ c ∈ w1.log, c.isMutation = false) ∧
      w1.log.head? = some .probeRead ∧
      ∃ δ, (manage b act s w).world.log = w1.log ++ δ := by
  intro hmut
  rcases hg : ensure_connectivity_check_is_disabled b w with ⟨u1, w1⟩ | ⟨e1, w1⟩
  · obtain ⟨δg, hδg, hh, hmem⟩ := ensure_log b w
    rw [hg] at hδg
    simp only [Outcome.world] at hδg
    rw [h0, List.nil_append] at hδg
    have hm : manage b act s w =
        (update_connection_status b >>= fun _ =>
          (match act with
           | .preConnection => setup_pre_connection_ks b s 0
           | .postConnection => setup_post_connection_ks b 0 false
           | .soft => throwE .typeError
           | .disable => disable_killswitch b)) w1 := by
      unfold manage
      exact bind_apply_ok hg
    refine ⟨w1, ?_, ?_, ?_, ?_⟩
    · rfl
    · intro c hc
      rw [hδg] at hc
      rcases hmem c hc with h | h <;> rw [h] <;> rfl
    · rw [hδg]
      exact hh
    · rw [hm, bind_apply_ok
        (show update_connection_status b w1 = .ok () (refreshW b w1) from rfl)]
      have hrl : (refreshW b w1).log = w1.log ++ [.refresh] := rfl
      cases act
      case preConnection =>
        obtain ⟨δa, δl, _, hl, _, _⟩ := pre_aux_run b s 5 0 (refreshW b w1)
        refine ⟨[.refresh] ++ δl, ?_⟩
        show (setup_pre_connection_ks_aux b s 5 0 (refreshW b w1)).world.log = _
        rw [hl, hrl, List.append_assoc]
      case postConnection =>
        obtain ⟨δa, δl, _, hl, _, _⟩ := post_aux_run b false 5 0 (refreshW b w1)
        refine ⟨[.refresh] ++ δl, ?_⟩
        show (setup_post_connection_ks_aux b false 5 0 (refreshW b w1)).world.log = _
        rw [hl, hrl, List.append_assoc]
      case soft =>
        exact ⟨[.refresh], rfl⟩
      case disable =>
        obtain ⟨_, ⟨δ, hl⟩, _⟩ :=
          ((steady_delete b .ks).seq (steady_delete b .routed)) (refreshW b w1)
        refine ⟨[.refresh] ++ δ, ?_⟩
        show ((delete_connection b .ks >>= fun _ =>
          delete_connection b .routed) (refreshW b w1)).world.log = _
        rw [hl, hrl, List.append_assoc]
  · exfalso
    obtain ⟨δg, hδg, hh, hmem⟩ := ensure_log b w
    rw [hg] at hδg
    simp only [Outcome.world] at hδg
    rw [h0, List.nil_append] at hδg
    have hm : manage b act s w = .err e1 w1 := by
      unfold manage
      exact bind_apply_err hg
    obtain ⟨c, hc, hcm⟩ := hmut
    rw [hm] at hc
    simp only [Outcome.world] at hc
    rw [hδg] at hc
    rcases hmem c hc with h | h <;> rw [h] at hcm <;> exact absurd hcm (by decide)

/-- Witness for C4 amended: the Disable action via `_manage` at a
concrete behaviour performs delete mutations, and the guard's probe read
is the head of the call log. -/
theorem C4_probe_before_mutation_witness :
    ∃ w1, ensure_connectivity_check_is_disabled bAllPresent
        (world0 ⟨⟨true, true⟩, ⟨true, true⟩⟩ ⟨false, false, false, false⟩ 0) =
          .ok () w1 ∧
      (∀ c ∈ w1.log, c.isMutation = false) ∧
      w1.log.head? = some .probeRead ∧
      ∃ δ, (manage bAllPresent .disable (.host 5)
        (world0 ⟨⟨true, true⟩, ⟨true, true⟩⟩ ⟨false, false, false, false⟩ 0)).world.log =
          w1.log ++ δ :=
  C4_probe_before_mutation bAllPresent .disable (.host 5)
    (world0 ⟨⟨true, true⟩, ⟨true, true⟩⟩ ⟨false, false, false, false⟩ 0)
    rfl (by decide)
